import Mathlib

/-!
# Session and board controller of the activity sign-up page (`src/static/app.js`)

A shallow embedding of the script that runs inside the `DOMContentLoaded`
callback.  The page is a record of the DOM parts the script touches, the two
script variables `authToken` and `currentUser`, the browser storage entry
`authToken`, the pending timers and a log of the requests issued so far.

Conventions of the embedding.

* Every `async` function is cut at its `await`: `f_start` is the part that runs
  synchronously when the handler is invoked (it issues the request),
  `f_resume` is the part that runs once the awaited `fetch` and
  `response.json()` have settled, applied to the page as it is at that moment.
  Other handlers may run between the two, so completion order is free.
* JSON values are the values `response.json()` can produce, with numbers taken
  to be integer literals; `undefined` is added because property reads produce
  it.  Where the script computes with a number it is an IEEE double: an integer
  literal stands for the nearest double and a difference is rounded to the
  nearest double (`roundToDouble`).
* The conversion of a string to a number is a built-in of the language whose
  results need not be integers; wherever the script coerces a string to a
  number the conversion is a parameter `strToNum` and every theorem holds for
  every choice of it.
* A card is assigned through `innerHTML` as unescaped text (lines 193, 200).  It
  is kept as the elements the template itself writes, plus the removal controls
  that markup inside the interpolated strings adds (`injectedButtons`).  That
  markup is read for a fragment of HTML only (`scanStep`); a card with a string
  outside the fragment is flagged `modelled := false`, and only the controls of
  its template are listed.
* Timers fire at their due time on a logical clock counted in milliseconds.
-/

namespace Board

/-! ## JavaScript values -/

/-- JSON values after parsing, plus `undefined`. -/
inductive JSVal where
  | undefined
  | null
  | bool (b : Bool)
  | num (n : Int)
  | str (s : String)
  | arr (xs : List JSVal)
  | obj (kvs : List (String × JSVal))

/-- The exceptions that can arise while the script runs. -/
inductive JSError where
  | typeError
  | referenceError
  | parseError
  | networkError
  deriving DecidableEq, Repr

/-- Completion of an evaluation: a value or a thrown exception. -/
inductive Res (α : Type) where
  | ok (a : α)
  | throw (e : JSError)
  deriving DecidableEq, Repr

/-- Sequencing of evaluations; a throw skips the rest. -/
def Res.bind {α β : Type} (r : Res α) (f : α → Res β) : Res β :=
  match r with
  | .ok a => f a
  | .throw e => .throw e

/-- Numbers as the script computes with them: an integer-valued double, an
infinity, or `NaN`. -/
inductive JSNum where
  | nan
  | int (i : Int)
  | inf (negative : Bool)
  deriving DecidableEq, Repr

/-- How many times `a` must be halved to fall below `2 ^ 53`; `fuel` bounds the
recursion and `a` itself is enough. -/
def excessBits : Nat → Nat → Nat
  | 0, _ => 0
  | fuel + 1, a => if a < 2 ^ 53 then 0 else excessBits fuel (a / 2) + 1

/-- The IEEE double nearest to the integer `n`, ties to the even significand:
`n` itself up to `2 ^ 53` in magnitude, otherwise `n` rounded to 53 significant
bits, and an infinity from `2 ^ 1024 - 2 ^ 970` on. -/
def roundToDouble (n : Int) : JSNum :=
  let a := n.natAbs
  if a ≤ 2 ^ 53 then .int n
  else
    let sh := excessBits a a
    let q := a / 2 ^ sh
    let r := a % 2 ^ sh
    let half := 2 ^ (sh - 1)
    let q1 := if half < r ∨ (r = half ∧ q % 2 = 1) then q + 1 else q
    if 971 < sh ∨ (sh = 971 ∧ q1 = 2 ^ 53) then .inf (decide (n < 0))
    else .int (if n < 0 then -((q1 * 2 ^ sh : Nat) : Int) else ((q1 * 2 ^ sh : Nat) : Int))

/-- Truthiness, as tested by `!x` and `x || y`. -/
def truthy : JSVal → Bool
  | .undefined => false
  | .null => false
  | .bool b => b
  | .num n => n != 0
  | .str s => s != ""
  | .arr _ => true
  | .obj _ => true

/-- Whether a parsed JSON object has an own property `k`. -/
def hasKey (k : String) : List (String × JSVal) → Bool
  | [] => false
  | (k2, _) :: rest => k2 == k || hasKey k rest

/-- Own property `k` of a parsed JSON object, `undefined` when there is none. -/
def lookupKey (k : String) : List (String × JSVal) → JSVal
  | [] => .undefined
  | (k2, v) :: rest => if k2 == k then v else lookupKey k rest

/-- Length of a string in UTF-16 code units, which is what `.length` reports. -/
def utf16Length (s : String) : Nat :=
  s.toList.foldl (fun n c => n + (if c.val ≥ 0x10000 then 2 else 1)) 0

/-- Property read `v.k` for the data keys the script reads (`message`, `detail`,
`token`, `user`, `name`, `description`, `schedule`, `max_participants`,
`participants`, `length`).  Reading a property of `undefined` or `null` throws a
TypeError; arrays and strings have a `length`; every other miss is `undefined`. -/
def getProp (v : JSVal) (k : String) : Res JSVal :=
  match v with
  | .undefined => .throw .typeError
  | .null => .throw .typeError
  | .obj kvs => .ok (lookupKey k kvs)
  | .arr xs => .ok (if k == "length" then .num xs.length else .undefined)
  | .str s => .ok (if k == "length" then .num (utf16Length s) else .undefined)
  | .bool _ => .ok .undefined
  | .num _ => .ok .undefined

/-- Element of an array inside `join`: `undefined` and `null` print as nothing. -/
def joinElem (x : JSVal) (r : Res String) : Res String :=
  match x with
  | .undefined => .ok ""
  | .null => .ok ""
  | _ => r

/-- One step of `Array.prototype.join(",")`. -/
def joinStep (a : Res String) (last : Bool) (b : Res String) : Res String :=
  match a, last, b with
  | .throw e, _, _ => .throw e
  | .ok x, true, _ => .ok x
  | .ok _, false, .throw e => .throw e
  | .ok x, false, .ok y => .ok (x ++ "," ++ y)

mutual
/-- String conversion (template literals, `setItem`).  A parsed object prints as
`[object Object]`, unless it carries an own `toString` property: that property
is JSON data, hence not callable, and the conversion throws a TypeError.  An
integer prints as its decimal digits, which is what the script prints for
integers up to `2 ^ 53` in magnitude. -/
def toStr : JSVal → Res String
  | .undefined => .ok "undefined"
  | .null => .ok "null"
  | .bool b => .ok (if b then "true" else "false")
  | .num n => .ok (toString n)
  | .str s => .ok s
  | .arr xs => joinStr xs
  | .obj kvs => if hasKey "toString" kvs then .throw .typeError else .ok "[object Object]"
/-- The elements of an array joined by commas. -/
def joinStr : List JSVal → Res String
  | [] => .ok ""
  | x :: rest => joinStep (joinElem x (toStr x)) rest.isEmpty (joinStr rest)
end

/-- Conversion done by the `textContent` setter: `undefined` and `null` give the
empty text, everything else is converted to a string. -/
def domString (v : JSVal) : Res String :=
  match v with
  | .undefined => .ok ""
  | .null => .ok ""
  | _ => toStr v

/-- Numeric conversion of an operand of `-` and `>`.  An integer literal of the
body is the double nearest to it. -/
def toNumber (strToNum : String → JSNum) (v : JSVal) : Res JSNum :=
  match v with
  | .undefined => .ok .nan
  | .null => .ok (.int 0)
  | .bool b => .ok (.int (if b then 1 else 0))
  | .num n => .ok (roundToDouble n)
  | .str s => .ok (strToNum s)
  | .arr xs => (joinStr xs).bind (fun t => .ok (strToNum t))
  | .obj kvs => (toStr (.obj kvs)).bind (fun t => .ok (strToNum t))

/-- Subtraction of doubles: the exact difference rounded to the nearest double;
an infinity absorbs a finite operand and `NaN` absorbs everything. -/
def jsSub (a b : JSNum) : JSNum :=
  match a, b with
  | .int x, .int y => roundToDouble (x - y)
  | .inf s, .int _ => .inf s
  | .int _, .inf s => .inf (!s)
  | .inf s, .inf t => if s = t then .nan else .inf s
  | .nan, _ => .nan
  | _, .nan => .nan

/-- The comparison `a > 0`. -/
def jsGtZero (a : JSNum) : Bool :=
  match a with
  | .int x => decide (0 < x)
  | .inf s => !s
  | .nan => false

/-- `Object.entries(v)`: throws on `undefined` and `null`, is empty on booleans
and numbers, lists index and element of arrays and strings, and the own
properties of an object in enumeration order. -/
def objectEntries (v : JSVal) : Res (List (String × JSVal)) :=
  match v with
  | .undefined => .throw .typeError
  | .null => .throw .typeError
  | .bool _ => .ok []
  | .num _ => .ok []
  | .str s => .ok (s.toList.enum.map (fun p => (toString p.1, JSVal.str (String.singleton p.2))))
  | .arr xs => .ok (xs.enum.map (fun p => (toString p.1, p.2)))
  | .obj kvs => .ok kvs

/-! ## The page -/

/-- `classList.add(c)`. -/
def classAdd (c : String) (cs : List String) : List String :=
  if cs.contains c then cs else cs ++ [c]

/-- `classList.remove(c)`. -/
def classRemove (c : String) (cs : List String) : List String :=
  cs.filter (fun x => x != c)

/-- An element is hidden when its class list holds `hidden`. -/
def isHidden (cs : List String) : Bool :=
  cs.contains "hidden"

/-- An element matched by `.delete-btn`: its class list, its `data-activity` and
`data-email` attributes (`none` when the attribute is missing, as
`getAttribute` reports `null`), and whether the click listener of line 221 is
attached. -/
structure DeleteBtn where
  classes : List String
  dataActivity : Option String
  dataEmail : Option String
  listener : Bool
  deriving DecidableEq, Repr

/-- One participant row of a card (line 193): the e-mail text, the removal
controls that markup inside the e-mail adds in front of the button of the
template, and that button. -/
structure Row where
  email : String
  injected : List DeleteBtn
  button : DeleteBtn
  deriving DecidableEq, Repr

/-- A rendered activity card (lines 178-208).  An empty `participants` list
stands for the paragraph `No participants yet`.  `injected` are the removal
controls that markup inside the name, the description and the schedule adds;
`modelled` tells whether every interpolated string is within the fragment of
HTML that the model reads. -/
structure Card where
  name : String
  description : String
  schedule : String
  spotsLeft : JSNum
  injected : List DeleteBtn
  participants : List Row
  modelled : Bool
  deriving DecidableEq, Repr

/-- A child of the list view `#activities-list`. -/
inductive Node where
  | markup (html : String)
  | card (c : Card)
  deriving DecidableEq, Repr

/-- An `option` element of the selection control `#activity`. -/
structure SelectOption where
  value : String
  text : String
  deriving DecidableEq, Repr

/-- A message element: its text and its class list. -/
structure Surface where
  text : String
  classes : List String
  deriving DecidableEq, Repr

/-- What a pending timer does when it fires. -/
inductive TimerAction where
  | hideLoginMessage
  | hideMessageDiv
  deriving DecidableEq, Repr

/-- A pending `setTimeout` callback and the clock value at which it fires. -/
structure Timer where
  due : Nat
  action : TimerAction
  deriving DecidableEq, Repr

/-- The requests the script issues. -/
inductive Request where
  | authMe (authorization : String)
  | login (username password : String)
  | logout (authorization : String)
  | activities
  | signup (activity email : String)
  | unregister (activity email authorization : String)
  deriving DecidableEq, Repr

/-- How an awaited `fetch` followed by `response.json()` settles: `fetch`
rejects, or a response arrives with a status and a body; the body is `none`
when it is not JSON, so that `response.json()` rejects. -/
inductive FetchOutcome where
  | networkError
  | response (status : Nat) (body : Option JSVal)

/-- `response.ok`. -/
def isOk (status : Nat) : Bool :=
  decide (200 ≤ status) && decide (status ≤ 299)

/-- The script variables and the parts of the page the script touches. -/
structure State where
  authToken : JSVal
  currentUser : JSVal
  storage : Option String
  userInfo : List String
  loginSection : List String
  teacherOnlySection : List String
  studentMessage : List String
  userName : String
  loginModal : List String
  activitiesList : List Node
  activitySelect : List SelectOption
  messageDiv : Surface
  loginMessage : Surface
  loginFormResets : Nat
  signupFormResets : Nat
  timers : List Timer
  now : Nat
  requests : List Request
  console : List String

/-- Result of running a stretch of code on the page: the page it leaves and the
exception that escaped it, if any. -/
abbrev Ran := State × Option JSError

/-- Result of the synchronous part of an `async` handler: it is waiting for its
request, or it already ran to its end. -/
inductive Started where
  | pending (s : State)
  | finished (s : State) (uncaught : Option JSError)

/-- The page of a `Started`. -/
def Started.state : Started → State
  | .pending s => s
  | .finished s _ => s

/-- The removal controls of one row, in document order. -/
def rowButtons (r : Row) : List DeleteBtn :=
  r.injected ++ [r.button]

/-- The removal controls of one card, in document order. -/
def cardButtons (c : Card) : List DeleteBtn :=
  c.injected ++ (c.participants.map rowButtons).flatten

/-- The removal controls of the children of the list view, in document order. -/
def allButtons : List Node → List DeleteBtn
  | [] => []
  | .markup _ :: rest => allButtons rest
  | .card c :: rest => cardButtons c ++ allButtons rest

/-- Apply `f` to every removal control of a card. -/
def mapCard (f : DeleteBtn → DeleteBtn) (c : Card) : Card :=
  { c with
    injected := c.injected.map f
    participants :=
      c.participants.map (fun r => { r with injected := r.injected.map f, button := f r.button }) }

/-- Apply `f` to every removal control (`querySelectorAll(".delete-btn").forEach`). -/
def mapButtons (f : DeleteBtn → DeleteBtn) : List Node → List Node
  | [] => []
  | .markup h :: rest => .markup h :: mapButtons f rest
  | .card c :: rest => .card (mapCard f c) :: mapButtons f rest

/-- The cards among the children of the list view. -/
def cardsOf : List Node → List Card
  | [] => []
  | .markup _ :: rest => cardsOf rest
  | .card c :: rest => c :: cardsOf rest

/-! ## Authentication (lines 18-155) -/

/-- Lines 54-65.  `currentUser.name` throws when `currentUser` is `undefined` or
`null`, and the `textContent` setter throws when the name cannot be converted;
either way the four panel changes above line 59 have already happened and the
buttons are not reached. -/
def updateUIForLoggedIn (s : State) : Ran :=
  let s1 := { s with
    userInfo := classRemove "hidden" s.userInfo
    loginSection := classAdd "hidden" s.loginSection
    teacherOnlySection := classRemove "hidden" s.teacherOnlySection
    studentMessage := classAdd "hidden" s.studentMessage }
  match (getProp s1.currentUser "name").bind domString with
  | .throw e => (s1, some e)
  | .ok t =>
    ({ s1 with
        userName := t
        activitiesList :=
          mapButtons (fun b => { b with classes := classRemove "hidden" b.classes }) s1.activitiesList },
      none)

/-- Lines 67-77. -/
def updateUIForLoggedOut (s : State) : State :=
  { s with
    userInfo := classAdd "hidden" s.userInfo
    loginSection := classRemove "hidden" s.loginSection
    teacherOnlySection := classAdd "hidden" s.teacherOnlySection
    studentMessage := classRemove "hidden" s.studentMessage
    activitiesList :=
      mapButtons (fun b => { b with classes := classAdd "hidden" b.classes }) s.activitiesList }

/-- The `catch` block of `checkAuthStatus` (lines 48-51). -/
def checkAuthStatus_catch (s : State) : State :=
  updateUIForLoggedOut { s with console := s.console ++ ["Auth check failed:"] }

/-- Lines 26-37 of `checkAuthStatus`, up to the awaited `fetch`. -/
def checkAuthStatus_start (s : State) : Started :=
  if !truthy s.authToken then
    .finished (updateUIForLoggedOut s) none
  else
    match toStr s.authToken with
    | .throw _ => .finished (checkAuthStatus_catch s) none
    | .ok t => .pending { s with requests := s.requests ++ [.authMe ("Bearer " ++ t)] }

/-- Lines 39-51 of `checkAuthStatus`, once the identity lookup has settled. -/
def checkAuthStatus_resume (o : FetchOutcome) (s : State) : State :=
  match o with
  | .networkError => checkAuthStatus_catch s
  | .response status body =>
    if isOk status then
      match body with
      | none => checkAuthStatus_catch s
      | some v =>
        match updateUIForLoggedIn { s with currentUser := v } with
        | (s1, none) => s1
        | (s1, some _) => checkAuthStatus_catch s1
    else
      updateUIForLoggedOut { s with storage := none, authToken := .null }

/-- Lines 80-83: the login button opens the modal. -/
def loginBtn_click (s : State) : State :=
  { s with loginModal := classAdd "show" (classRemove "hidden" s.loginModal) }

/-- Lines 85-88: the close control closes the modal. -/
def closeModal_click (s : State) : State :=
  { s with loginModal := classRemove "show" (classAdd "hidden" s.loginModal) }

/-- Lines 90-95: a click whose target is the modal backdrop closes the modal. -/
def window_click (targetIsModal : Bool) (s : State) : State :=
  if targetIsModal then
    { s with loginModal := classRemove "show" (classAdd "hidden" s.loginModal) }
  else s

/-- Lines 157-165. -/
def showLoginMessage (message : JSVal) (type : String) (s : State) : Ran :=
  match domString message with
  | .throw e => (s, some e)
  | .ok t =>
    ({ s with
        loginMessage := { text := t, classes := classRemove "hidden" ["message", type] }
        timers := s.timers ++ [{ due := s.now + 5000, action := .hideLoginMessage }] },
      none)

/-- The call `showMessage(..)` of lines 125 and 154.  The script declares
`showLoginMessage` only; no binding named `showMessage` exists in it, so the
call throws a ReferenceError and changes nothing. -/
def showMessage (_message : String) (_type : String) (s : State) : Ran :=
  (s, some .referenceError)

/-- The `catch` block of the login handler (lines 129-132). -/
def login_catch (s : State) : State :=
  (showLoginMessage (.str "Login failed. Please try again.") "error"
    { s with console := s.console ++ ["Login error:"] }).1

/-- Lines 98-111 of the login handler, up to the awaited `fetch`. -/
def login_start (username password : String) (s : State) : State :=
  { s with requests := s.requests ++ [.login username password] }

/-- Lines 115-125: the branch taken on a 2xx reply, inside the `try`. -/
def login_success (result : JSVal) (s : State) : Ran :=
  match getProp result "token" with
  | .throw e => (s, some e)
  | .ok token =>
    let s1 := { s with authToken := token }
    match toStr token with
    | .throw e => (s1, some e)
    | .ok stored =>
      let s2 := { s1 with storage := some stored }
      match getProp result "user" with
      | .throw e => (s2, some e)
      | .ok user =>
        let s3 := { s2 with
          currentUser := user
          loginModal := classRemove "show" (classAdd "hidden" s2.loginModal)
          loginFormResets := s2.loginFormResets + 1 }
        match updateUIForLoggedIn s3 with
        | (s4, some e) => (s4, some e)
        | (s4, none) => showMessage "Logged in successfully!" "success" s4

/-- Lines 126-128: the branch taken on a non-2xx reply, inside the `try`. -/
def login_failure (result : JSVal) (s : State) : Ran :=
  match getProp result "detail" with
  | .throw e => (s, some e)
  | .ok detail =>
    showLoginMessage (if truthy detail then detail else .str "Login failed") "error" s

/-- Lines 113-132 of the login handler, once the login request has settled. -/
def login_resume (o : FetchOutcome) (s : State) : State :=
  match o with
  | .networkError => login_catch s
  | .response _ none => login_catch s
  | .response status (some result) =>
    match (if isOk status then login_success result s else login_failure result s) with
    | (s1, none) => s1
    | (s1, some _) => login_catch s1

/-- Lines 148-154: the unconditional tail of the logout handler.  It lies
outside the `try`, so the exception of line 154 escapes the handler. -/
def logout_tail (s : State) : Ran :=
  showMessage "Logged out successfully!" "info"
    (updateUIForLoggedOut { s with authToken := .null, currentUser := .null, storage := none })

/-- The `catch` block of the logout handler (lines 144-146). -/
def logout_catch (s : State) : State :=
  { s with console := s.console ++ ["Logout error:"] }

/-- Lines 136-143 of the logout handler, up to the awaited `fetch`. -/
def logout_start (s : State) : Started :=
  match toStr s.authToken with
  | .throw _ =>
    let r := logout_tail (logout_catch s)
    .finished r.1 r.2
  | .ok t => .pending { s with requests := s.requests ++ [.logout ("Bearer " ++ t)] }

/-- Lines 144-154 of the logout handler, once the logout request has settled.
The response is not read. -/
def logout_resume (o : FetchOutcome) (s : State) : Ran :=
  match o with
  | .networkError => logout_tail (logout_catch s)
  | .response _ _ => logout_tail s

/-! ## Markup inside interpolated strings

The strings of the catalog reach the page as text of an `innerHTML` assignment:
the name inside `h4` and inside `data-activity="..."`, the description and the
schedule inside `p`, each e-mail inside `span` and inside `data-email="..."`.
The model reads such a string as HTML when it lies in this fragment: text
without `&`, without the double quote, without NUL and without CR, and tags
`<name attr='value' ...>` and `</name>` whose name is one of `simpleTags` and
whose attribute values are single-quoted.  For these tags the parser inserts
one element per start tag and nothing else changes, and inside the
double-quoted attributes of the template the string stays attribute text. -/

/-- A start tag: its name and its attributes. -/
structure StartTag where
  name : String
  attrs : List (String × String)
  deriving DecidableEq, Repr

/-- Tag names of the fragment. -/
def simpleTags : List String :=
  ["span", "button", "div", "p", "li", "ul"]

/-- Where the scanner is inside the text. -/
inductive ScanState where
  | data
  | tagOpen
  | endTag (name : List Char)
  | tagName (name : List Char)
  | beforeAttr (tag : String) (attrs : List (String × String))
  | attrName (tag : String) (attrs : List (String × String)) (name : List Char)
  | afterEq (tag : String) (attrs : List (String × String)) (name : String)
  | attrValue (tag : String) (attrs : List (String × String)) (name : String) (value : List Char)
  | afterValue (tag : String) (attrs : List (String × String))
  deriving DecidableEq, Repr

/-- Characters of tag and attribute names in the fragment. -/
def isNameChar (c : Char) : Bool :=
  c.isLower || c.isDigit || c == '-'

/-- Characters that take a string out of the fragment wherever they stand:
`&`, the double quote, NUL and CR. -/
def leavesFragment (c : Char) : Bool :=
  c == '&' || c == Char.ofNat 34 || c == Char.ofNat 0 || c == Char.ofNat 13

/-- The first attribute of a name wins; a repeated one is dropped. -/
def addAttr (attrs : List (String × String)) (name value : String) : List (String × String) :=
  if attrs.any (fun a => a.1 == name) then attrs else attrs ++ [(name, value)]

/-- One character of the scan; `none` when the text leaves the fragment. -/
def scanStep (st : ScanState) (tags : List StartTag) (c : Char) :
    Option (ScanState × List StartTag) :=
  if leavesFragment c then none
  else
    match st with
    | .data => if c == '<' then some (.tagOpen, tags) else some (.data, tags)
    | .tagOpen =>
      if c == '/' then some (.endTag [], tags)
      else if c.isLower then some (.tagName [c], tags)
      else none
    | .endTag name =>
      if c == '>' then
        (if simpleTags.contains (String.mk name) then some (.data, tags) else none)
      else if isNameChar c then some (.endTag (name ++ [c]), tags)
      else none
    | .tagName name =>
      if c == '>' then
        (if simpleTags.contains (String.mk name) then
          some (.data, tags ++ [{ name := String.mk name, attrs := [] }])
        else none)
      else if c == ' ' then
        (if simpleTags.contains (String.mk name) then some (.beforeAttr (String.mk name) [], tags)
        else none)
      else if isNameChar c then some (.tagName (name ++ [c]), tags)
      else none
    | .beforeAttr tag attrs =>
      if c == '>' then some (.data, tags ++ [{ name := tag, attrs := attrs }])
      else if c == ' ' then some (.beforeAttr tag attrs, tags)
      else if c.isLower then some (.attrName tag attrs [c], tags)
      else none
    | .attrName tag attrs name =>
      if c == '=' then some (.afterEq tag attrs (String.mk name), tags)
      else if isNameChar c then some (.attrName tag attrs (name ++ [c]), tags)
      else none
    | .afterEq tag attrs name =>
      if c == Char.ofNat 39 then some (.attrValue tag attrs name [], tags) else none
    | .attrValue tag attrs name value =>
      if c == Char.ofNat 39 then some (.afterValue tag (addAttr attrs name (String.mk value)), tags)
      else some (.attrValue tag attrs name (value ++ [c]), tags)
    | .afterValue tag attrs =>
      if c == '>' then some (.data, tags ++ [{ name := tag, attrs := attrs }])
      else if c == ' ' then some (.beforeAttr tag attrs, tags)
      else none

/-- Scan the rest of a text; it must end outside a tag. -/
def scanFrom : ScanState → List StartTag → List Char → Option (List StartTag)
  | .data, tags, [] => some tags
  | _, _, [] => none
  | st, tags, c :: rest =>
    match scanStep st tags c with
    | none => none
    | some next => scanFrom next.1 next.2 rest

/-- The start tags of a text of the fragment, `none` outside the fragment. -/
def scanMarkup (s : String) : Option (List StartTag) :=
  scanFrom .data [] s.toList

/-- Whether a text lies in the fragment. -/
def simpleMarkup (s : String) : Bool :=
  (scanMarkup s).isSome

/-- The characters that separate the tokens of a class attribute: space, tab,
line feed and form feed (CR is outside the fragment). -/
def isClassSeparator (c : Char) : Bool :=
  c == ' ' || c == Char.ofNat 9 || c == Char.ofNat 10 || c == Char.ofNat 12

/-- The tokens of a class attribute: `cur` is the token being read. -/
def classTokens : List Char → List Char → List String
  | cur, [] => if cur.isEmpty then [] else [String.mk cur]
  | cur, c :: rest =>
    if isClassSeparator c then
      (if cur.isEmpty then classTokens [] rest else String.mk cur :: classTokens [] rest)
    else classTokens (cur ++ [c]) rest

/-- Value of an attribute of a start tag. -/
def attrOf (name : String) : List (String × String) → Option String
  | [] => none
  | (n, v) :: rest => if n == name then some v else attrOf name rest

/-- A start tag as a removal control: `querySelectorAll(".delete-btn")` matches
the element of any tag whose class list holds `delete-btn`. -/
def toButton (t : StartTag) : Option DeleteBtn :=
  if (classTokens [] ((attrOf "class" t.attrs).getD "").toList).contains "delete-btn" then
    some { classes := classTokens [] ((attrOf "class" t.attrs).getD "").toList
           dataActivity := attrOf "data-activity" t.attrs
           dataEmail := attrOf "data-email" t.attrs
           listener := false }
  else none

/-- The removal controls that the markup of a text adds where the text is
interpolated as element content; none when the text is outside the fragment. -/
def injectedButtons (s : String) : List DeleteBtn :=
  match scanMarkup s with
  | none => []
  | some tags => tags.filterMap toButton

/-! ## The board (lines 167-228) -/

/-- The static failure notice of lines 224-225. -/
def failureNotice : Node :=
  .markup "<p>Failed to load activities. Please try again later.</p>"

/-- The class attribute of the button of line 193: it carries `hidden` exactly
when `currentUser` is falsy. -/
def buttonClasses (currentUser : JSVal) : List String :=
  if !truthy currentUser then ["delete-btn", "hidden"] else ["delete-btn"]

/-- The row of one participant (line 193).  Listeners are attached later, at
lines 220-222. -/
def renderRow (currentUser : JSVal) (name : String) (email : JSVal) : Res Row :=
  (toStr email).bind (fun e =>
    .ok { email := e
          injected := injectedButtons e
          button :=
            { classes := buttonClasses currentUser
              dataActivity := some name
              dataEmail := some e
              listener := false } })

/-- The `map` of lines 190-195 over the participants. -/
def renderRows (currentUser : JSVal) (name : String) : List JSVal → Res (List Row)
  | [] => .ok []
  | e :: rest =>
    (renderRow currentUser name e).bind (fun r =>
      (renderRows currentUser name rest).bind (fun rs => .ok (r :: rs)))

/-- Lines 185-198: the participant rows when `participants.length > 0`, which
needs `participants` to have a callable `map`, that is to be an array; the
paragraph `No participants yet` otherwise. -/
def renderParticipants (currentUser : JSVal) (name : String) (participants : JSVal)
    (len : JSNum) : Res (List Row) :=
  if jsGtZero len then
    match participants with
    | .arr ps => renderRows currentUser name ps
    | _ => .throw .typeError
  else .ok []

/-- Lines 178-208: the card of one catalog entry. -/
def renderCard (strToNum : String → JSNum) (currentUser : JSVal) (name : String)
    (details : JSVal) : Res Card :=
  (getProp details "max_participants").bind (fun maxP =>
  (getProp details "participants").bind (fun participants =>
  (getProp participants "length").bind (fun len =>
  (toNumber strToNum maxP).bind (fun a =>
  (toNumber strToNum len).bind (fun b =>
  (renderParticipants currentUser name participants b).bind (fun rows =>
  ((getProp details "description").bind toStr).bind (fun description =>
  ((getProp details "schedule").bind toStr).bind (fun schedule =>
    .ok { name := name
          description := description
          schedule := schedule
          spotsLeft := jsSub a b
          injected := injectedButtons name ++ injectedButtons description
            ++ injectedButtons schedule
          participants := rows
          modelled := simpleMarkup name && simpleMarkup description && simpleMarkup schedule
            && rows.all (fun r => simpleMarkup r.email) }))))))))

/-- The `forEach` of lines 177-217: each entry appends its card to the list view
and its option to the selection control; a throw stops the loop and keeps what
was appended so far. -/
def renderEntries (strToNum : String → JSNum) : List (String × JSVal) → State → Ran
  | [], s => (s, none)
  | (name, details) :: rest, s =>
    match renderCard strToNum s.currentUser name details with
    | .throw e => (s, some e)
    | .ok c =>
      renderEntries strToNum rest
        { s with
          activitiesList := s.activitiesList ++ [.card c]
          activitySelect := s.activitySelect ++ [{ value := name, text := name }] }

/-- The `catch` block of `fetchActivities` (lines 223-227). -/
def fetchActivities_catch (s : State) : State :=
  { s with
    activitiesList := [failureNotice]
    console := s.console ++ ["Error fetching activities:"] }

/-- Line 170 of `fetchActivities`: the catalog request is issued. -/
def fetchActivities_start (s : State) : State :=
  { s with requests := s.requests ++ [.activities] }

/-- Lines 171-227 of `fetchActivities`, once the catalog request has settled.
The status of the response is not read. -/
def fetchActivities_resume (strToNum : String → JSNum) (o : FetchOutcome) (s : State) : State :=
  match o with
  | .networkError => fetchActivities_catch s
  | .response _ none => fetchActivities_catch s
  | .response _ (some activities) =>
    let s1 := { s with activitiesList := [] }
    match objectEntries activities with
    | .throw _ => fetchActivities_catch s1
    | .ok entries =>
      match renderEntries strToNum entries s1 with
      | (s2, some _) => fetchActivities_catch s2
      | (s2, none) =>
        { s2 with
          activitiesList := mapButtons (fun b => { b with listener := true }) s2.activitiesList }

/-! ## Unregister and signup (lines 230-319) -/

/-- Lines 262-267 and 307-312: show the board message and schedule its hiding. -/
def showBoardMessage (s : State) : State :=
  { s with
    messageDiv := { s.messageDiv with classes := classRemove "hidden" s.messageDiv.classes }
    timers := s.timers ++ [{ due := s.now + 5000, action := .hideMessageDiv }] }

/-- Lines 258-259 and 303-304: the branch taken on a non-2xx reply. -/
def showDetail (result : JSVal) (s : State) : Ran :=
  match (getProp result "detail").bind
      (fun d => domString (if truthy d then d else .str "An error occurred")) with
  | .throw e => (s, some e)
  | .ok t => ({ s with messageDiv := { text := t, classes := ["error"] } }, none)

/-- The `catch` block of `handleUnregister` (lines 268-273): no timer is set. -/
def handleUnregister_catch (s : State) : State :=
  { s with
    messageDiv :=
      { text := "Failed to unregister. Please try again."
        classes := classRemove "hidden" ["error"] }
    console := s.console ++ ["Error unregistering:"] }

/-- Lines 231-247 of `handleUnregister`, up to the awaited `fetch`.  A missing
attribute reads as `null`, which `encodeURIComponent` turns into `null`. -/
def handleUnregister_start (button : DeleteBtn) (s : State) : Started :=
  match toStr s.authToken with
  | .throw _ => .finished (handleUnregister_catch s) none
  | .ok t =>
    .pending { s with
      requests := s.requests ++
        [.unregister (button.dataActivity.getD "null") (button.dataEmail.getD "null")
          ("Bearer " ++ t)] }

/-- Lines 251-256: the branch taken on a 2xx reply of the unregister request. -/
def handleUnregister_success (result : JSVal) (s : State) : Ran :=
  match (getProp result "message").bind domString with
  | .throw e => (s, some e)
  | .ok t =>
    (fetchActivities_start { s with messageDiv := { text := t, classes := ["success"] } }, none)

/-- Lines 249-273 of `handleUnregister`, once the request has settled. -/
def handleUnregister_resume (o : FetchOutcome) (s : State) : State :=
  match o with
  | .networkError => handleUnregister_catch s
  | .response _ none => handleUnregister_catch s
  | .response status (some result) =>
    match (if isOk status then handleUnregister_success result s else showDetail result s) with
    | (s1, none) => showBoardMessage s1
    | (s1, some _) => handleUnregister_catch s1

/-- The `catch` block of the signup handler (lines 313-318): no timer is set. -/
def signup_catch (s : State) : State :=
  { s with
    messageDiv :=
      { text := "Failed to sign up. Please try again."
        classes := classRemove "hidden" ["error"] }
    console := s.console ++ ["Error signing up:"] }

/-- Lines 277-291 of the signup handler, up to the awaited `fetch`. -/
def signup_start (email activity : String) (s : State) : State :=
  { s with requests := s.requests ++ [.signup activity email] }

/-- Lines 295-301: the branch taken on a 2xx reply of the signup request. -/
def signup_success (result : JSVal) (s : State) : Ran :=
  match (getProp result "message").bind domString with
  | .throw e => (s, some e)
  | .ok t =>
    (fetchActivities_start
      { s with
        messageDiv := { text := t, classes := ["success"] }
        signupFormResets := s.signupFormResets + 1 },
      none)

/-- Lines 293-318 of the signup handler, once the request has settled. -/
def signup_resume (o : FetchOutcome) (s : State) : State :=
  match o with
  | .networkError => signup_catch s
  | .response _ none => signup_catch s
  | .response status (some result) =>
    match (if isOk status then signup_success result s else showDetail result s) with
    | (s1, none) => showBoardMessage s1
    | (s1, some _) => signup_catch s1

/-! ## Timers and startup -/

/-- The callbacks of lines 162-164, 265-267 and 310-312. -/
def fire (a : TimerAction) (s : State) : State :=
  match a with
  | .hideLoginMessage =>
    { s with loginMessage := { s.loginMessage with classes := classAdd "hidden" s.loginMessage.classes } }
  | .hideMessageDiv =>
    { s with messageDiv := { s.messageDiv with classes := classAdd "hidden" s.messageDiv.classes } }

/-- Let `d` milliseconds pass with no other event: the clock advances and every
timer that is due by then fires, oldest first. -/
def elapse (d : Nat) (s : State) : State :=
  (s.timers.filter (fun t => decide (t.due ≤ s.now + d))).foldl (fun st t => fire t.action st)
    { s with
      now := s.now + d
      timers := s.timers.filter (fun t => !decide (t.due ≤ s.now + d)) }

/-- Lines 18-23 and 322: the synchronous part of the `DOMContentLoaded`
callback on a page `page` (its markup and its storage entry): the variables are
initialised, `checkAuthStatus()` runs up to its request, and `fetchActivities()`
issues the catalog request.  The result is `pending` when the identity lookup
was issued and `finished` when `checkAuthStatus()` ended without one; the
catalog request is pending in both. -/
def startup (page : State) : Started :=
  let s0 := { page with
    authToken := (match page.storage with
      | some t => JSVal.str t
      | none => JSVal.null)
    currentUser := .null }
  match checkAuthStatus_start s0 with
  | .pending s1 => .pending (fetchActivities_start s1)
  | .finished s1 e => .finished (fetchActivities_start s1) e

/-- A page with no classes set, nothing rendered and nothing pending, holding
`storage` in the browser storage. -/
def blankPage (storage : Option String) : State :=
  { authToken := .null
    currentUser := .null
    storage := storage
    userInfo := []
    loginSection := []
    teacherOnlySection := []
    studentMessage := []
    userName := ""
    loginModal := []
    activitiesList := []
    activitySelect := []
    messageDiv := { text := "", classes := [] }
    loginMessage := { text := "", classes := [] }
    loginFormResets := 0
    signupFormResets := 0
    timers := []
    now := 0
    requests := []
    console := [] }

/-- The page is in the logged-out mode of lines 67-77. -/
def uiLoggedOut (s : State) : Prop :=
  isHidden s.userInfo = true ∧ isHidden s.loginSection = false ∧
  isHidden s.teacherOnlySection = true ∧ isHidden s.studentMessage = false ∧
  ∀ b ∈ allButtons s.activitiesList, isHidden b.classes = true

/-- The characters that are special in markup: `<`, `>`, `&` and both quotes. -/
def markupChar (c : Char) : Bool :=
  c == '<' || c == '>' || c == '&' || c == Char.ofNat 34 || c == Char.ofNat 39

/-- A text with no character that is special in markup. -/
def plainText (s : String) : Bool :=
  s.toList.all (fun c => !markupChar c)

/-- A value whose string form, when it has one, is plain text. -/
def plainValue (v : JSVal) : Prop :=
  ∀ t, toStr v = .ok t → plainText t = true

/-- A catalog entry whose interpolated strings are plain text: the name, the
description, the schedule and every participant. -/
def plainEntry (e : String × JSVal) : Prop :=
  plainText e.1 = true ∧
  (∀ v, getProp e.2 "description" = .ok v → plainValue v) ∧
  (∀ v, getProp e.2 "schedule" = .ok v → plainValue v) ∧
  (∀ ps, getProp e.2 "participants" = .ok (.arr ps) → ∀ p ∈ ps, plainValue p)

/-- A catalog reply all of whose entries are plain; a reply without a readable
body has nothing to interpolate. -/
def plainCatalog : FetchOutcome → Prop
  | .networkError => True
  | .response _ none => True
  | .response _ (some body) => ∀ es, objectEntries body = .ok es → ∀ e ∈ es, plainEntry e

/-- The catalog fetch yields nothing that can be rendered: `fetch` throws, the
body is not JSON, `Object.entries` throws on the body, or the card of some
entry throws. -/
def unrenderable (strToNum : String → JSNum) (currentUser : JSVal) : FetchOutcome → Prop
  | .networkError => True
  | .response _ none => True
  | .response _ (some body) =>
    match objectEntries body with
    | .throw _ => True
    | .ok es => ∃ e ∈ es, ∃ err, renderCard strToNum currentUser e.1 e.2 = .throw err

/-- Session cleared and page in the logged-out mode. -/
def sessionCleared (s : State) : Prop :=
  s.authToken = JSVal.null ∧ s.currentUser = JSVal.null ∧ s.storage = none ∧ uiLoggedOut s

/-- The message element a timer action hides. -/
def surfaceOf (a : TimerAction) (s : State) : Surface :=
  match a with
  | .hideLoginMessage => s.loginMessage
  | .hideMessageDiv => s.messageDiv

/-- No pending timer will hide the surface of `a`. -/
def noPending (a : TimerAction) (s : State) : Prop :=
  ∀ t ∈ s.timers, t.action ≠ a

/-- The value can be assigned to `textContent` without an exception. -/
def displayable (v : JSVal) : Prop :=
  ∃ t, domString v = .ok t

/-! ## Concrete replies used in the instances below -/

/-- A login reply body: token `t1` and a teacher identity. -/
def teacherReply : JSVal :=
  .obj [("token", .str "t1"),
        ("user", .obj [("name", .str "Ms T"), ("role", .str "teacher")])]

/-- A catalog with one activity that has one participant. -/
def chessCatalog : JSVal :=
  .obj [("Chess Club", .obj [("description", .str "Learn chess"),
          ("schedule", .str "Fridays"), ("max_participants", .num 12),
          ("participants", .arr [.str "a@b.com"])])]

/-- A catalog with one activity that has more participants than places. -/
def fullCatalog : JSVal :=
  .obj [("Gym", .obj [("description", .str "Sports"),
          ("schedule", .str "Mondays"), ("max_participants", .num 1),
          ("participants", .arr [.str "a@b.com", .str "c@d.com"])])]

/-- A catalog whose activity has one place taken too many below the smallest
integer that doubles count exactly: `max_participants` is `-(2 ^ 53)`. -/
def deepDebtCatalog : JSVal :=
  .obj [("Gym", .obj [("description", .str "Sports"),
          ("schedule", .str "Mondays"), ("max_participants", .num (-9007199254740992)),
          ("participants", .arr [.str "a@b.com"])])]

/-- A catalog whose participant entry holds markup: it closes the `span` of the
row and opens a button with the classes `delete-btn hidden`. -/
def markupCatalog : JSVal :=
  .obj [("Chess Club", .obj [("description", .str "Learn chess"),
          ("schedule", .str "Fridays"), ("max_participants", .num 12),
          ("participants",
            .arr [.str "x</span><button class=\x27delete-btn hidden\x27>y</button><span>"])])]

/-- String-to-number conversion used in the instances; no instance coerces a
string, so any function does. -/
def noStrings : String → JSNum := fun _ => .nan

/-- The page after: startup with the persisted token `stale`; a login submitted
and answered with 200 and `teacherReply` while the identity lookup is still
pending; the catalog request of startup answered with `chessCatalog`. -/
def loggedInWhileChecking : State :=
  fetchActivities_resume noStrings (.response 200 (some chessCatalog))
    (login_resume (.response 200 (some teacherReply))
      (login_start "teacher" "secret" (startup (blankPage (some "stale"))).state))

/-- The page after two failed logins: the first is answered 401 at time 0, the
second is answered 401 three seconds later, with nothing else in between. -/
def twoLoginFailures : State :=
  login_resume (.response 401 (some (.obj [("detail", .str "Second")])))
    (elapse 3000
      (login_resume (.response 401 (some (.obj [("detail", .str "First")]))) (blankPage none)))

/-! ## Basic facts -/

theorem Res.bind_ok {α β : Type} (a : α) (f : α → Res β) : (Res.ok a).bind f = f a := rfl

theorem Res.bind_throw {α β : Type} (e : JSError) (f : α → Res β) :
    (Res.throw e : Res α).bind f = Res.throw e := rfl

theorem Res.bind_eq_ok {α β : Type} (r : Res α) (f : α → Res β) (b : β) :
    r.bind f = Res.ok b ↔ ∃ a, r = Res.ok a ∧ f a = Res.ok b := by
  cases r with
  | ok a => simp [Res.bind]
  | throw e => simp [Res.bind]

theorem isHidden_classAdd (cs : List String) : isHidden (classAdd "hidden" cs) = true := by
  unfold isHidden classAdd
  by_cases h : cs.contains "hidden" = true
  · rw [if_pos h]; exact h
  · rw [if_neg h]; simp

theorem isHidden_classRemove (cs : List String) : isHidden (classRemove "hidden" cs) = false := by
  unfold isHidden classRemove
  simp

theorem isHidden_classRemove_show (cs : List String) :
    isHidden (classRemove "show" cs) = isHidden cs := by
  unfold isHidden classRemove
  rw [Bool.eq_iff_iff]
  simp

theorem allButtons_append (xs ys : List Node) :
    allButtons (xs ++ ys) = allButtons xs ++ allButtons ys := by
  induction xs with
  | nil => simp [allButtons]
  | cons x rest ih =>
    cases x with
    | markup h => simpa [allButtons] using ih
    | card c => simp [allButtons, ih]

theorem cardButtons_mapCard (f : DeleteBtn → DeleteBtn) (c : Card) :
    cardButtons (mapCard f c) = (cardButtons c).map f := by
  simp [cardButtons, mapCard, rowButtons, List.map_flatten, Function.comp_def]

theorem allButtons_mapButtons (f : DeleteBtn → DeleteBtn) (xs : List Node) :
    allButtons (mapButtons f xs) = (allButtons xs).map f := by
  induction xs with
  | nil => simp [allButtons, mapButtons]
  | cons x rest ih =>
    cases x with
    | markup h => simpa [allButtons, mapButtons] using ih
    | card c => simp [allButtons, mapButtons, ih, cardButtons_mapCard]

theorem uiLoggedOut_updateUIForLoggedOut (s : State) : uiLoggedOut (updateUIForLoggedOut s) := by
  refine ⟨isHidden_classAdd _, isHidden_classRemove _, isHidden_classAdd _,
    isHidden_classRemove _, ?_⟩
  intro b hb
  simp only [updateUIForLoggedOut, allButtons_mapButtons, List.mem_map] at hb
  obtain ⟨b0, _, rfl⟩ := hb
  exact isHidden_classAdd _

theorem updateUIForLoggedIn_session (s : State) :
    (updateUIForLoggedIn s).1.authToken = s.authToken ∧
    (updateUIForLoggedIn s).1.currentUser = s.currentUser ∧
    (updateUIForLoggedIn s).1.storage = s.storage ∧
    (updateUIForLoggedIn s).1.loginModal = s.loginModal ∧
    (updateUIForLoggedIn s).1.requests = s.requests ∧
    (updateUIForLoggedIn s).1.teacherOnlySection = classRemove "hidden" s.teacherOnlySection := by
  unfold updateUIForLoggedIn
  dsimp only
  split <;> simp

theorem login_catch_session (s : State) :
    (login_catch s).authToken = s.authToken ∧
    (login_catch s).currentUser = s.currentUser ∧
    (login_catch s).storage = s.storage ∧
    (login_catch s).loginModal = s.loginModal ∧
    (login_catch s).requests = s.requests ∧
    (login_catch s).teacherOnlySection = s.teacherOnlySection ∧
    (login_catch s).messageDiv = s.messageDiv ∧
    (login_catch s).loginMessage.text = "Login failed. Please try again." := by
  simp [login_catch, showLoginMessage, domString, toStr]

theorem sessionCleared_logout_tail (s : State) : sessionCleared (logout_tail s).1 :=
  ⟨rfl, rfl, rfl, uiLoggedOut_updateUIForLoggedOut _⟩

/-! ## Rendering facts -/

theorem scanStep_data (tags : List StartTag) (c : Char) (hc : (c == '<') = false) :
    scanStep .data tags c = none ∨ scanStep .data tags c = some (.data, tags) := by
  unfold scanStep
  by_cases hl : leavesFragment c = true
  · left
    simp [hl]
  · right
    simp [hl, hc]

theorem scanFrom_data_plain (tags : List StartTag) (cs : List Char)
    (h : ∀ c ∈ cs, (c == '<') = false) :
    scanFrom .data tags cs = none ∨ scanFrom .data tags cs = some tags := by
  induction cs with
  | nil =>
    right
    rfl
  | cons c rest ih =>
    have hc := h c (List.mem_cons_self _ _)
    have hrest := ih (fun c2 h2 => h c2 (List.mem_cons_of_mem _ h2))
    unfold scanFrom
    rcases scanStep_data tags c hc with h1 | h1
    · left
      simp [h1]
    · simp only [h1]
      exact hrest

theorem injectedButtons_plain (s : String) (h : plainText s = true) : injectedButtons s = [] := by
  have hlt : ∀ c ∈ s.toList, (c == '<') = false := by
    intro c hc
    unfold plainText at h
    have h1 := List.all_eq_true.mp h c hc
    simp only [markupChar, Bool.not_eq_true', Bool.or_eq_false_iff] at h1
    exact h1.1.1.1.1
  unfold injectedButtons scanMarkup
  rcases scanFrom_data_plain [] s.toList hlt with h1 | h1
  · rw [h1]
  · rw [h1]
    rfl

theorem renderRows_plain (cu : JSVal) (name : String) (ps : List JSVal) (rows : List Row)
    (h : renderRows cu name ps = .ok rows) (hp : ∀ p ∈ ps, plainValue p) :
    ∀ r ∈ rows, r.injected = [] ∧ r.button.classes = buttonClasses cu := by
  induction ps generalizing rows with
  | nil =>
    simp [renderRows] at h
    subst h
    simp
  | cons e rest ih =>
    unfold renderRows at h
    simp only [Res.bind_eq_ok] at h
    obtain ⟨r0, h1, rs, h2, h3⟩ := h
    simp only [Res.ok.injEq] at h3
    subst h3
    intro r hr
    rcases List.mem_cons.mp hr with hr | hr
    · subst hr
      unfold renderRow at h1
      simp only [Res.bind_eq_ok] at h1
      obtain ⟨t, ht, h4⟩ := h1
      simp only [Res.ok.injEq] at h4
      subst h4
      exact ⟨injectedButtons_plain t (hp e (List.mem_cons_self _ _) t ht), rfl⟩
    · exact ih rs h2 (fun p hp2 => hp p (List.mem_cons_of_mem _ hp2)) r hr

theorem renderParticipants_plain (cu : JSVal) (name : String) (parts : JSVal) (b : JSNum)
    (rows : List Row) (h : renderParticipants cu name parts b = .ok rows)
    (hp : ∀ ps, parts = .arr ps → ∀ p ∈ ps, plainValue p) :
    ∀ r ∈ rows, r.injected = [] ∧ r.button.classes = buttonClasses cu := by
  unfold renderParticipants at h
  split at h
  · split at h
    · rename_i ps
      exact renderRows_plain cu name ps rows h (hp ps rfl)
    · simp at h
  · simp only [Res.ok.injEq] at h
    subst h
    simp

theorem renderCard_plain (f : String → JSNum) (cu : JSVal) (name : String) (d : JSVal)
    (c : Card) (h : renderCard f cu name d = .ok c) (hp : plainEntry (name, d)) :
    ∀ b ∈ cardButtons c, b.classes = buttonClasses cu := by
  unfold renderCard at h
  simp only [Res.bind_eq_ok] at h
  obtain ⟨maxP, _, parts, h2, len, _, a, _, b, _, rows, h6, desc, h7, sched, h8, hc⟩ := h
  obtain ⟨vd, hvd, htd⟩ := h7
  obtain ⟨vs, hvs, hts⟩ := h8
  obtain ⟨p1, p2, p3, p4⟩ := hp
  simp only [Res.ok.injEq] at hc
  subst hc
  have hrows := renderParticipants_plain cu name parts b rows h6
    (fun ps hps => p4 ps (by rw [← hps]; exact h2))
  intro b0 hb0
  simp only [cardButtons, injectedButtons_plain name p1,
    injectedButtons_plain desc (p2 vd hvd desc htd),
    injectedButtons_plain sched (p3 vs hvs sched hts), List.append_nil, List.nil_append,
    List.mem_flatten, List.mem_map] at hb0
  obtain ⟨l, ⟨r, hr, rfl⟩, hb⟩ := hb0
  obtain ⟨hi, hcl⟩ := hrows r hr
  simp only [rowButtons, hi, List.nil_append, List.mem_singleton] at hb
  subst hb
  exact hcl

theorem renderCard_name (f : String → JSNum) (cu : JSVal) (name : String) (d : JSVal)
    (c : Card) (h : renderCard f cu name d = .ok c) : c.name = name := by
  unfold renderCard at h
  simp only [Res.bind_eq_ok] at h
  obtain ⟨maxP, _, parts, _, len, _, a, _, b, _, rows, _, desc, _, sched, _, hc⟩ := h
  simp only [Res.ok.injEq] at hc
  subst hc
  rfl

theorem renderEntries_currentUser (f : String → JSNum) (es : List (String × JSVal)) (s : State) :
    (renderEntries f es s).1.currentUser = s.currentUser := by
  induction es generalizing s with
  | nil => rfl
  | cons e rest ih =>
    obtain ⟨name, d⟩ := e
    unfold renderEntries
    cases h : renderCard f s.currentUser name d with
    | throw err => rfl
    | ok c => simp only [ih]

theorem renderEntries_buttons (f : String → JSNum) (es : List (String × JSVal)) (s : State)
    (hp : ∀ e ∈ es, plainEntry e) :
    ∀ b ∈ allButtons (renderEntries f es s).1.activitiesList,
      b ∈ allButtons s.activitiesList ∨ b.classes = buttonClasses s.currentUser := by
  induction es generalizing s with
  | nil =>
    intro b hb
    exact Or.inl hb
  | cons e rest ih =>
    obtain ⟨name, d⟩ := e
    unfold renderEntries
    cases h : renderCard f s.currentUser name d with
    | throw err =>
      intro b hb
      exact Or.inl hb
    | ok c =>
      intro b hb
      rcases ih _ (fun e2 h2 => hp e2 (List.mem_cons_of_mem _ h2)) b hb with h1 | h1
      · simp only [allButtons_append, List.mem_append] at h1
        rcases h1 with h1 | h1
        · exact Or.inl h1
        · right
          simp only [allButtons, List.append_nil] at h1
          exact renderCard_plain f s.currentUser name d c h
            (hp (name, d) (List.mem_cons_self _ _)) b h1
      · exact Or.inr h1

theorem fetchActivities_resume_buttons (f : String → JSNum) (o : FetchOutcome) (s : State)
    (hp : plainCatalog o) :
    ∀ b ∈ allButtons (fetchActivities_resume f o s).activitiesList,
      b.classes = buttonClasses s.currentUser := by
  intro b hb
  unfold fetchActivities_resume at hb
  split at hb
  · simp [fetchActivities_catch, failureNotice, allButtons] at hb
  · simp [fetchActivities_catch, failureNotice, allButtons] at hb
  · dsimp only at hb
    split at hb
    · simp [fetchActivities_catch, failureNotice, allButtons] at hb
    · rename_i entries hentries
      split at hb
      · simp [fetchActivities_catch, failureNotice, allButtons] at hb
      · rename_i s2 hs2
        simp only [allButtons_mapButtons, List.mem_map] at hb
        obtain ⟨b0, hb0, rfl⟩ := hb
        have h2 := renderEntries_buttons f entries { s with activitiesList := [] }
          (hp entries hentries) b0
        rw [hs2] at h2
        rcases h2 hb0 with h3 | h3
        · simp [allButtons] at h3
        · exact h3

/-! ## Login, logout and the startup check -/

theorem login_resume_success (status : Nat) (kvs : List (String × JSVal)) (tok : String)
    (u : List (String × JSVal)) (s : State) (hok : isOk status = true)
    (htok : lookupKey "token" kvs = .str tok) (husr : lookupKey "user" kvs = .obj u) :
    login_resume (.response status (some (.obj kvs))) s =
      login_catch (updateUIForLoggedIn
        { s with
          authToken := .str tok
          storage := some tok
          currentUser := .obj u
          loginModal := classRemove "show" (classAdd "hidden" s.loginModal)
          loginFormResets := s.loginFormResets + 1 }).1 := by
  unfold login_resume
  simp only [hok, if_true]
  unfold login_success
  simp only [getProp, htok, husr, toStr]
  split
  · rename_i s1 h
    split at h
    · simp [showMessage] at h
    · simp [showMessage] at h
  · rename_i s1 e h
    split at h
    · rename_i s4 e4 h4
      simp only [Prod.mk.injEq] at h
      rw [h4]
      simp [h.1]
    · rename_i s4 h4
      simp only [showMessage, Prod.mk.injEq] at h
      rw [h4]
      simp [h.1]

theorem plainCatalog_chessCatalog (status : Nat) :
    plainCatalog (.response status (some chessCatalog)) := by
  intro es hes
  simp only [chessCatalog, objectEntries, Res.ok.injEq] at hes
  subst hes
  intro e he
  simp only [List.mem_singleton] at he
  subst he
  refine ⟨by decide, ?_, ?_, ?_⟩
  · intro v hv t ht
    simp [getProp, lookupKey] at hv
    subst hv
    simp only [toStr, Res.ok.injEq] at ht
    subst ht
    decide
  · intro v hv t ht
    simp [getProp, lookupKey] at hv
    subst hv
    simp only [toStr, Res.ok.injEq] at ht
    subst ht
    decide
  · intro ps hps p hp t ht
    simp [getProp, lookupKey] at hps
    subst hps
    simp only [List.mem_singleton] at hp
    subst hp
    simp only [toStr, Res.ok.injEq] at ht
    subst ht
    decide

/-- C3, as stated, fails: after a login answered 200 with token and identity,
the next refresh is answered with a catalog whose participant entry holds the
markup of a button with the classes `delete-btn hidden`.  Line 193 writes the
entry unescaped, so the list view then holds two removal controls in that row:
the one of the markup, hidden, and the one of the template, visible. -/
theorem markup_in_email_adds_hidden_control :
    truthy (login_resume (.response 200 (some teacherReply)) (blankPage none)).currentUser
      = true ∧
    (cardsOf (fetchActivities_resume noStrings (.response 200 (some markupCatalog))
        (login_resume (.response 200 (some teacherReply)) (blankPage none))).activitiesList).map
      (fun c => c.modelled) = [true] ∧
    (allButtons (fetchActivities_resume noStrings (.response 200 (some markupCatalog))
        (login_resume (.response 200 (some teacherReply)) (blankPage none))).activitiesList).map
      (fun b => isHidden b.classes) = [true, false] := by
  decide

/-- C3, amended: for every login request answered with a 2xx status and a body
with a string `token` and an identity object `user`, after the login handler
has run the token is in the storage entry and in `authToken`, the identity is
`currentUser`, the login modal is closed, the teacher-only panel is visible,
and every removal control of the list view after the next board refresh,
however that refresh settles, is visible, provided the strings of the fetched
catalog (names, descriptions, schedules, participants) hold no character that
is special in markup. -/
theorem login_success_state (f : String → JSNum) (status : Nat) (kvs : List (String × JSVal))
    (tok : String) (u : List (String × JSVal)) (s : State) (refresh : FetchOutcome)
    (hok : isOk status = true)
    (htok : lookupKey "token" kvs = .str tok) (husr : lookupKey "user" kvs = .obj u) :
    (login_resume (.response status (some (.obj kvs))) s).storage = some tok ∧
    (login_resume (.response status (some (.obj kvs))) s).authToken = .str tok ∧
    (login_resume (.response status (some (.obj kvs))) s).currentUser = .obj u ∧
    isHidden (login_resume (.response status (some (.obj kvs))) s).loginModal = true ∧
    (login_resume (.response status (some (.obj kvs))) s).loginModal.contains "show" = false ∧
    isHidden (login_resume (.response status (some (.obj kvs))) s).teacherOnlySection = false ∧
    (plainCatalog refresh →
      ∀ b ∈ allButtons (fetchActivities_resume f refresh
          (login_resume (.response status (some (.obj kvs))) s)).activitiesList,
        isHidden b.classes = false) := by
  have hs := login_resume_success status kvs tok u s hok htok husr
  have hc := login_catch_session (updateUIForLoggedIn
        { s with
          authToken := .str tok
          storage := some tok
          currentUser := .obj u
          loginModal := classRemove "show" (classAdd "hidden" s.loginModal)
          loginFormResets := s.loginFormResets + 1 }).1
  have hu := updateUIForLoggedIn_session
        { s with
          authToken := .str tok
          storage := some tok
          currentUser := .obj u
          loginModal := classRemove "show" (classAdd "hidden" s.loginModal)
          loginFormResets := s.loginFormResets + 1 }
  obtain ⟨c1, c2, c3, c4, _, c6, _, _⟩ := hc
  obtain ⟨u1, u2, u3, u4, _, u6⟩ := hu
  have hmodal : (login_resume (.response status (some (.obj kvs))) s).loginModal =
      classRemove "show" (classAdd "hidden" s.loginModal) := by
    rw [hs, c4, u4]
  have huser : (login_resume (.response status (some (.obj kvs))) s).currentUser = .obj u := by
    rw [hs, c2, u2]
  refine ⟨by rw [hs, c3, u3], by rw [hs, c1, u1], huser, ?_, ?_, ?_, ?_⟩
  · rw [hmodal, isHidden_classRemove_show]
    exact isHidden_classAdd _
  · rw [hmodal]
    unfold classRemove
    simp
  · rw [hs, c6, u6]
    exact isHidden_classRemove _
  · intro hplain b hb
    have h1 := fetchActivities_resume_buttons f refresh _ hplain b hb
    rw [h1, huser]
    rfl

/-- C3, amended, instance: a 200 reply with token `t1` and a teacher identity,
followed by a refresh whose catalog has one participant with a plain e-mail:
the list view holds one removal control and it is visible. -/
theorem login_success_state_witness :
    (login_resume (.response 200 (some teacherReply)) (blankPage none)).storage = some "t1" ∧
    (allButtons (fetchActivities_resume noStrings (.response 200 (some chessCatalog))
        (login_resume (.response 200 (some teacherReply)) (blankPage none))).activitiesList).length
      = 1 ∧
    ∀ b ∈ allButtons (fetchActivities_resume noStrings (.response 200 (some chessCatalog))
        (login_resume (.response 200 (some teacherReply)) (blankPage none))).activitiesList,
      isHidden b.classes = false :=
  ⟨(login_success_state noStrings 200
      [("token", .str "t1"), ("user", .obj [("name", .str "Ms T"), ("role", .str "teacher")])]
      "t1" [("name", .str "Ms T"), ("role", .str "teacher")] (blankPage none)
      (.response 200 (some chessCatalog)) (by decide) rfl rfl).1,
   by decide,
   (login_success_state noStrings 200
      [("token", .str "t1"), ("user", .obj [("name", .str "Ms T"), ("role", .str "teacher")])]
      "t1" [("name", .str "Ms T"), ("role", .str "teacher")] (blankPage none)
      (.response 200 (some chessCatalog)) (by decide) rfl rfl).2.2.2.2.2.2
      (plainCatalog_chessCatalog 200)⟩

/-- C4: for every way the logout request settles (any response, or a network
failure) and every prior page, after the logout handler `authToken` and
`currentUser` are `null`, the storage entry is removed and the page is in the
logged-out mode: user panel and teacher-only panel hidden, login panel shown,
every removal control hidden.  The same holds when the handler ends before its
request because the Authorization header could not be built. -/
theorem logout_clears_session (o : FetchOutcome) (s : State) :
    sessionCleared (logout_resume o s).1 ∧
    (match logout_start s with
      | .pending _ => True
      | .finished s1 _ => sessionCleared s1) := by
  constructor
  · cases o with
    | networkError => exact sessionCleared_logout_tail _
    | response st b => exact sessionCleared_logout_tail _
  · unfold logout_start
    cases h : toStr s.authToken with
    | throw e => exact sessionCleared_logout_tail _
    | ok t => trivial

theorem updateUIForLoggedOut_session (s : State) :
    (updateUIForLoggedOut s).authToken = s.authToken ∧
    (updateUIForLoggedOut s).currentUser = s.currentUser ∧
    (updateUIForLoggedOut s).storage = s.storage ∧
    (updateUIForLoggedOut s).requests = s.requests :=
  ⟨rfl, rfl, rfl, rfl⟩

theorem checkAuthStatus_resume_requests (o : FetchOutcome) (s : State) :
    (checkAuthStatus_resume o s).requests = s.requests := by
  unfold checkAuthStatus_resume
  split
  · rfl
  · split
    · split
      · rfl
      · rename_i v
        have h := (updateUIForLoggedIn_session { s with currentUser := v }).2.2.2.2.1
        split
        · rename_i s1 h1
          rw [h1] at h
          exact h
        · rename_i s1 e h1
          rw [h1] at h
          exact h
    · rfl

/-- C5, as stated, fails: startup with the persisted token `stale` issues the
identity lookup, the lookup fails at the network (`fetch` throws), and after
the handler the token is still in `authToken` and still in the storage entry. -/
theorem startup_network_failure_keeps_token :
    (startup (blankPage (some "stale"))).state.requests
      = [.authMe "Bearer stale", .activities] ∧
    (checkAuthStatus_resume .networkError (startup (blankPage (some "stale"))).state).authToken
      = .str "stale" ∧
    (checkAuthStatus_resume .networkError (startup (blankPage (some "stale"))).state).storage
      = some "stale" :=
  ⟨by decide, rfl, rfl⟩

/-- C5, amended: on startup with a non-empty persisted token exactly one
identity-lookup request is issued (followed by the catalog request), and the
handler issues no further request when the lookup settles; for every non-2xx
reply the token is discarded from `authToken`, the storage entry is cleared
and the page is put in the logged-out mode; when `fetch` throws the page is
put in the logged-out mode as well, while `authToken` and the storage entry
keep the token. -/
theorem startup_auth_check (page : State) (t : String) (hs : page.storage = some t)
    (ht : t ≠ "") :
    (∃ s1, startup page = .pending s1 ∧
      s1.requests = page.requests ++ [.authMe ("Bearer " ++ t), .activities]) ∧
    (∀ (o : FetchOutcome) (s : State), (checkAuthStatus_resume o s).requests = s.requests) ∧
    (∀ (status : Nat) (body : Option JSVal) (s : State), isOk status = false →
      (checkAuthStatus_resume (.response status body) s).authToken = .null ∧
      (checkAuthStatus_resume (.response status body) s).storage = none ∧
      uiLoggedOut (checkAuthStatus_resume (.response status body) s)) ∧
    (∀ s : State,
      (checkAuthStatus_resume .networkError s).authToken = s.authToken ∧
      (checkAuthStatus_resume .networkError s).storage = s.storage ∧
      uiLoggedOut (checkAuthStatus_resume .networkError s)) := by
  refine ⟨?_, checkAuthStatus_resume_requests, ?_, ?_⟩
  · have htr : truthy (JSVal.str t) = true := by simp [truthy, ht]
    have hst : startup page = .pending (fetchActivities_start
        { page with
          authToken := .str t
          currentUser := .null
          requests := page.requests ++ [.authMe ("Bearer " ++ t)] }) := by
      unfold startup checkAuthStatus_start
      simp only [hs, htr, toStr]
      rfl
    exact ⟨_, hst, by simp [fetchActivities_start]⟩
  · intro status body s hno
    unfold checkAuthStatus_resume
    simp only [hno]
    exact ⟨rfl, rfl, uiLoggedOut_updateUIForLoggedOut _⟩
  · intro s
    exact ⟨rfl, rfl, uiLoggedOut_updateUIForLoggedOut _⟩

/-- C5, amended, instance: the persisted token `stale` and the reply 401. -/
theorem startup_auth_check_witness :
    (blankPage (some "stale")).storage = some "stale" ∧
    (checkAuthStatus_resume (.response 401 none) (startup (blankPage (some "stale"))).state).storage
      = none :=
  ⟨rfl, ((startup_auth_check (blankPage (some "stale")) "stale" rfl (by decide)).2.2.1 401 none
      (startup (blankPage (some "stale"))).state (by decide)).2.1⟩

/-! ## Evaluations at concrete inputs -/

/-- C1, failing run: startup finds the persisted token `stale` and issues the
identity lookup; before it is answered the teacher logs in (200, token and
identity) and the board is rendered with one participant, whose removal
control is visible; then the identity lookup is answered 401.  Lines 44-46
hide every removal control but leave `currentUser` set: the control is hidden
while the user is present. -/
theorem late_auth_reply_breaks_visibility :
    truthy loggedInWhileChecking.currentUser = true ∧
    (allButtons loggedInWhileChecking.activitiesList).map (fun b => isHidden b.classes)
      = [false] ∧
    truthy (checkAuthStatus_resume (.response 401 (some (.obj [("detail", .str "Invalid token")])))
      loggedInWhileChecking).currentUser = true ∧
    (allButtons (checkAuthStatus_resume
        (.response 401 (some (.obj [("detail", .str "Invalid token")])))
        loggedInWhileChecking).activitiesList).map (fun b => isHidden b.classes) = [true] := by
  decide

/-- C6, failing run: two successive refreshes with the same catalog leave the
same list view as one refresh, but the selection control holds the option of
the activity twice, because line 174 empties the list view only. -/
theorem second_refresh_duplicates_options :
    (fetchActivities_resume noStrings (.response 200 (some chessCatalog))
      (fetchActivities_resume noStrings (.response 200 (some chessCatalog))
        (blankPage none))).activitiesList
      = (fetchActivities_resume noStrings (.response 200 (some chessCatalog))
          (blankPage none)).activitiesList ∧
    (fetchActivities_resume noStrings (.response 200 (some chessCatalog))
        (blankPage none)).activitySelect
      = [{ value := "Chess Club", text := "Chess Club" }] ∧
    (fetchActivities_resume noStrings (.response 200 (some chessCatalog))
      (fetchActivities_resume noStrings (.response 200 (some chessCatalog))
        (blankPage none))).activitySelect
      = [{ value := "Chess Club", text := "Chess Club" },
         { value := "Chess Club", text := "Chess Club" }] := by
  decide

/-- C9, failing run: after a login answered 200 with token and identity the
board message surface is untouched and the login surface shows the failure
text of line 131, because the call of line 125 throws and lands in the `catch`;
and for every outcome of the logout request and every page the logout handler
ends with an uncaught ReferenceError and leaves the board message surface as
it was. -/
theorem success_messages_never_shown :
    (login_resume (.response 200 (some teacherReply)) (blankPage none)).messageDiv
      = (blankPage none).messageDiv ∧
    (login_resume (.response 200 (some teacherReply)) (blankPage none)).loginMessage
      = { text := "Login failed. Please try again.", classes := ["message", "error"] } ∧
    (∀ (o : FetchOutcome) (s : State),
      (logout_resume o s).2 = some JSError.referenceError ∧
      (logout_resume o s).1.messageDiv = s.messageDiv) := by
  refine ⟨by decide, by decide, ?_⟩
  intro o s
  cases o with
  | networkError => exact ⟨rfl, rfl⟩
  | response st b => exact ⟨rfl, rfl⟩

/-! ## The list view after a refresh -/

theorem renderEntries_ok (f : String → JSNum) (es : List (String × JSVal)) (s s2 : State)
    (h : renderEntries f es s = (s2, none)) :
    ∃ cs : List Card,
      s2.activitiesList = s.activitiesList ++ cs.map Node.card ∧
      s2.activitySelect
        = s.activitySelect ++ es.map (fun e => { value := e.1, text := e.1 : SelectOption }) ∧
      cs.length = es.length ∧
      ∀ (i : Nat) (c : Card), cs[i]? = some c →
        ∃ e, es[i]? = some e ∧ renderCard f s.currentUser e.1 e.2 = .ok c := by
  induction es generalizing s with
  | nil =>
    simp only [renderEntries, Prod.mk.injEq] at h
    obtain ⟨rfl, _⟩ := h
    exact ⟨[], by simp, by simp, rfl, by simp⟩
  | cons e rest ih =>
    obtain ⟨name, d⟩ := e
    unfold renderEntries at h
    cases hc : renderCard f s.currentUser name d with
    | throw err => simp [hc] at h
    | ok c0 =>
      simp only [hc] at h
      obtain ⟨cs, h1, h2, h3, h4⟩ := ih _ h
      refine ⟨c0 :: cs, ?_, ?_, ?_, ?_⟩
      · simpa using h1
      · simpa using h2
      · simp [h3]
      · intro i c hi
        cases i with
        | zero =>
          simp only [List.getElem?_cons_zero, Option.some.injEq] at hi
          subst hi
          exact ⟨(name, d), by simp, hc⟩
        | succ j =>
          simp only [List.getElem?_cons_succ] at hi
          obtain ⟨e, he, hr⟩ := h4 j c hi
          exact ⟨e, by simpa using he, hr⟩

theorem renderEntries_throw (f : String → JSNum) (es : List (String × JSVal)) (s : State) :
    (renderEntries f es s).2 ≠ none ↔
      ∃ e ∈ es, ∃ err, renderCard f s.currentUser e.1 e.2 = .throw err := by
  induction es generalizing s with
  | nil => simp [renderEntries]
  | cons e rest ih =>
    obtain ⟨name, d⟩ := e
    unfold renderEntries
    cases hc : renderCard f s.currentUser name d with
    | throw err =>
      simp only [ne_eq, reduceCtorEq, not_false_eq_true, List.mem_cons, true_iff]
      exact ⟨(name, d), Or.inl rfl, err, hc⟩
    | ok c0 =>
      simp only [ih]
      constructor
      · rintro ⟨e, he, err, h⟩
        exact ⟨e, List.mem_cons_of_mem _ he, err, h⟩
      · rintro ⟨e, he, err, h⟩
        rcases List.mem_cons.mp he with he | he
        · subst he
          simp only at h
          rw [hc] at h
          cases h
        · exact ⟨e, he, err, h⟩

theorem cardsOf_append (xs ys : List Node) : cardsOf (xs ++ ys) = cardsOf xs ++ cardsOf ys := by
  induction xs with
  | nil => simp [cardsOf]
  | cons x rest ih =>
    cases x with
    | markup h => simpa [cardsOf] using ih
    | card c => simp [cardsOf, ih]

theorem cardsOf_map_card (cs : List Card) : cardsOf (cs.map Node.card) = cs := by
  induction cs with
  | nil => rfl
  | cons c rest ih => simp [cardsOf, ih]

theorem cardsOf_mapButtons (g : DeleteBtn → DeleteBtn) (xs : List Node) :
    cardsOf (mapButtons g xs) = (cardsOf xs).map (mapCard g) := by
  induction xs with
  | nil => rfl
  | cons x rest ih =>
    cases x with
    | markup h => simpa [cardsOf, mapButtons] using ih
    | card c => simp [cardsOf, mapButtons, ih]

theorem roundToDouble_exact (n : Int) (h : n.natAbs ≤ 2 ^ 53) : roundToDouble n = .int n := by
  unfold roundToDouble
  simp only [h, if_true]

theorem jsSub_exact (m n : Int) (hhi : m ≤ 2 ^ 53) (hlo : -(2 ^ 53) ≤ m - n) (hn0 : 0 ≤ n)
    (hn : n < 2 ^ 32) :
    jsSub (roundToDouble m) (roundToDouble n) = .int (m - n) := by
  rw [roundToDouble_exact m (by omega), roundToDouble_exact n (by omega)]
  simp only [jsSub]
  exact roundToDouble_exact (m - n) (by omega)

theorem renderCard_spotsLeft (f : String → JSNum) (cu : JSVal) (name : String) (d : JSVal)
    (c : Card) (m : Int) (ps : List JSVal) (h : renderCard f cu name d = .ok c)
    (hm : getProp d "max_participants" = .ok (.num m))
    (hp : getProp d "participants" = .ok (.arr ps)) :
    c.spotsLeft = jsSub (roundToDouble m) (roundToDouble ps.length) := by
  unfold renderCard at h
  simp only [Res.bind_eq_ok] at h
  obtain ⟨maxP, h1, parts, h2, len, h3, a, h4, b, h5, rows, _, desc, _, sched, _, hc⟩ := h
  rw [hm] at h1
  rw [hp] at h2
  simp only [Res.ok.injEq] at h1 h2
  subst h1
  subst h2
  simp only [getProp, beq_self_eq_true, if_true, Res.ok.injEq] at h3
  subst h3
  simp only [toNumber, Res.ok.injEq] at h4 h5
  subst h4
  subst h5
  simp only [Res.ok.injEq] at hc
  subst hc
  rfl

theorem fetchActivities_resume_rendered (f : String → JSNum) (status : Nat) (body : JSVal)
    (es : List (String × JSVal)) (s : State) (he : objectEntries body = .ok es)
    (hr : (renderEntries f es { s with activitiesList := [] }).2 = none) :
    ∃ cs : List Card,
      (fetchActivities_resume f (.response status (some body)) s).activitiesList
        = mapButtons (fun b => { b with listener := true }) (cs.map Node.card) ∧
      (fetchActivities_resume f (.response status (some body)) s).activitySelect
        = s.activitySelect ++ es.map (fun e => { value := e.1, text := e.1 : SelectOption }) ∧
      cs.length = es.length ∧
      ∀ (i : Nat) (c : Card), cs[i]? = some c →
        ∃ e, es[i]? = some e ∧ renderCard f s.currentUser e.1 e.2 = .ok c := by
  have hpair : renderEntries f es { s with activitiesList := [] }
      = ((renderEntries f es { s with activitiesList := [] }).1, none) := by
    rw [← hr]
  obtain ⟨cs, h1, h2, h3, h4⟩ := renderEntries_ok f es _ _ hpair
  refine ⟨cs, ?_, ?_, h3, h4⟩
  · unfold fetchActivities_resume
    simp only [he]
    rw [hpair]
    simp only [h1, List.nil_append]
  · unfold fetchActivities_resume
    simp only [he]
    rw [hpair]
    simpa using h2

theorem fetchActivities_resume_failed (f : String → JSNum) (status : Nat) (body : JSVal)
    (es : List (String × JSVal)) (s : State) (he : objectEntries body = .ok es)
    (hr : (renderEntries f es { s with activitiesList := [] }).2 ≠ none) :
    (fetchActivities_resume f (.response status (some body)) s).activitiesList
      = [failureNotice] := by
  unfold fetchActivities_resume
  simp only [he]
  split
  · rfl
  · rename_i s2 h
    rw [h] at hr
    exact absurd rfl hr

/-- C10, as stated, fails: with `max_participants` equal to `-(2 ^ 53)` and one
participant, line 181 subtracts doubles and the availability number is
`-9007199254740992`, not `max_participants` minus the number of participants,
which is `-9007199254740993`. -/
theorem availability_rounded_beyond_two_pow_53 :
    (cardsOf (fetchActivities_resume noStrings (.response 200 (some deepDebtCatalog))
        (blankPage none)).activitiesList).map (fun c => c.spotsLeft)
      = [.int (-9007199254740992)] ∧
    (cardsOf (fetchActivities_resume noStrings (.response 200 (some deepDebtCatalog))
        (blankPage none)).activitiesList).map (fun c => c.spotsLeft)
      ≠ [.int (-9007199254740992 - 1)] := by
  decide

/-- C10, amended: after a refresh, the card at position `i` of the list view
belongs to the entry at position `i` of the fetched catalog; when that entry
has an integer `max_participants` and a participant sequence, the availability
number of the card is the difference of the two as doubles, and whenever
`max_participants` is at most `2 ^ 53` and the difference is at least
`-(2 ^ 53)` (a sequence has fewer than `2 ^ 32` members) it equals
`max_participants` minus the number of participants exactly, unclamped, hence
negative when the participants outnumber the places. -/
theorem spotsLeft_is_max_minus_count (f : String → JSNum) (status : Nat) (body : JSVal)
    (entries : List (String × JSVal)) (s : State) (i : Nat) (c : Card)
    (name : String) (d : JSVal) (m : Int) (ps : List JSVal)
    (hentries : objectEntries body = .ok entries)
    (hentry : entries[i]? = some (name, d))
    (hcard : (cardsOf (fetchActivities_resume f (.response status (some body)) s).activitiesList)[i]?
      = some c)
    (hm : getProp d "max_participants" = .ok (.num m))
    (hp : getProp d "participants" = .ok (.arr ps)) :
    c.name = name ∧
    c.spotsLeft = jsSub (roundToDouble m) (roundToDouble ps.length) ∧
    (m ≤ 2 ^ 53 → -(2 ^ 53) ≤ m - ps.length → (ps.length : Int) < 2 ^ 32 →
      c.spotsLeft = .int (m - ps.length) ∧
      (m < ps.length → ∃ k : Int, c.spotsLeft = .int k ∧ k < 0)) := by
  by_cases hr : (renderEntries f entries { s with activitiesList := [] }).2 = none
  · obtain ⟨cs, h1, _, _, h4⟩ := fetchActivities_resume_rendered f status body entries s hentries hr
    rw [h1, cardsOf_mapButtons, cardsOf_map_card] at hcard
    simp only [List.getElem?_map, Option.map_eq_some'] at hcard
    obtain ⟨c0, hc0, rfl⟩ := hcard
    obtain ⟨e, he, hrc⟩ := h4 i c0 hc0
    rw [hentry] at he
    simp only [Option.some.injEq] at he
    subst he
    have hsp : (mapCard (fun b => { b with listener := true }) c0).spotsLeft
        = jsSub (roundToDouble m) (roundToDouble ps.length) :=
      renderCard_spotsLeft f _ name d c0 m ps hrc hm hp
    refine ⟨renderCard_name f _ name d c0 hrc, hsp, ?_⟩
    intro hhi hlo hlen
    have hex : (mapCard (fun b => { b with listener := true }) c0).spotsLeft
        = .int (m - ps.length) := by
      rw [hsp]
      exact jsSub_exact m ps.length hhi hlo (by omega) hlen
    exact ⟨hex, fun hlt => ⟨m - ps.length, hex, by omega⟩⟩
  · rw [fetchActivities_resume_failed f status body entries s hentries hr] at hcard
    simp [failureNotice, cardsOf] at hcard

/-- C10, amended, instance: one place, two participants, availability -1. -/
theorem spotsLeft_is_max_minus_count_witness :
    (cardsOf (fetchActivities_resume noStrings (.response 200 (some fullCatalog))
        (blankPage none)).activitiesList).map (fun c => (c.name, c.spotsLeft))
      = [("Gym", .int (-1))] ∧
    ∃ k : Int, JSNum.int (-1) = .int k ∧ k < 0 :=
  ⟨by decide,
   ((spotsLeft_is_max_minus_count noStrings 200 fullCatalog
    [("Gym", JSVal.obj [("description", .str "Sports"), ("schedule", .str "Mondays"),
      ("max_participants", .num 1), ("participants", .arr [.str "a@b.com", .str "c@d.com"])])]
    (blankPage none) 0
    { name := "Gym", description := "Sports", schedule := "Mondays", spotsLeft := .int (-1),
      injected := []
      participants :=
        [{ email := "a@b.com"
           injected := []
           button := { classes := ["delete-btn", "hidden"], dataActivity := some "Gym"
                       dataEmail := some "a@b.com", listener := true } },
         { email := "c@d.com"
           injected := []
           button := { classes := ["delete-btn", "hidden"], dataActivity := some "Gym"
                       dataEmail := some "c@d.com", listener := true } }]
      modelled := true }
    "Gym" _ 1 [.str "a@b.com", .str "c@d.com"]
    rfl rfl (by decide) rfl rfl).2.2 (by decide) (by decide) (by decide)).2 (by decide)⟩

/-- C7, as stated, fails: a catalog request answered 500 with the empty object
as body leaves the list view empty; no failure notice is shown. -/
theorem empty_object_error_reply_shows_no_notice :
    (fetchActivities_resume noStrings (.response 500 (some (.obj []))) (blankPage none)).activitiesList
      = [] ∧
    (fetchActivities_resume noStrings (.response 500 (some (.obj []))) (blankPage none)).activitiesList
      ≠ [failureNotice] := by
  decide

/-- C7, amended: `refresh()` never throws (it is a total function of the page),
and it leaves the list view equal to the static failure notice exactly when
`fetch` throws, the body is not JSON, or the body cannot be rendered
(`Object.entries` or the card of an entry throws), whatever the status; the
status is not read at all, and the usual error body with a `detail` text is
among the bodies that cannot be rendered. -/
theorem failure_notice_iff_unrenderable (f : String → JSNum) (o : FetchOutcome) (s : State) :
    ((fetchActivities_resume f o s).activitiesList = [failureNotice]
      ↔ unrenderable f s.currentUser o) ∧
    (∀ (st1 st2 : Nat) (body : Option JSVal),
      fetchActivities_resume f (.response st1 body) s
        = fetchActivities_resume f (.response st2 body) s) ∧
    (∀ (st : Nat) (msg : String),
      (fetchActivities_resume f (.response st (some (.obj [("detail", .str msg)]))) s).activitiesList
        = [failureNotice]) := by
  refine ⟨?_, ?_, ?_⟩
  · cases o with
    | networkError => simp [fetchActivities_resume, fetchActivities_catch, unrenderable]
    | response st body =>
      cases body with
      | none => simp [fetchActivities_resume, fetchActivities_catch, unrenderable]
      | some b =>
        cases he : objectEntries b with
        | throw err =>
          simp [fetchActivities_resume, fetchActivities_catch, unrenderable, he]
        | ok es =>
          simp only [unrenderable, he]
          rw [← renderEntries_throw f es { s with activitiesList := [] }]
          by_cases hr : (renderEntries f es { s with activitiesList := [] }).2 = none
          · obtain ⟨cs, h1, _, _, _⟩ := fetchActivities_resume_rendered f st b es s he hr
            rw [h1]
            simp only [hr, ne_eq, not_true_eq_false, iff_false]
            cases cs with
            | nil => simp [mapButtons]
            | cons c rest => simp [mapButtons, failureNotice]
          · simp only [fetchActivities_resume_failed f st b es s he hr, true_iff]
            exact hr
  · intro st1 st2 body
    cases body <;> rfl
  · intro st msg
    apply fetchActivities_resume_failed f st (.obj [("detail", .str msg)])
      [("detail", .str msg)] s rfl
    rw [renderEntries_throw]
    refine ⟨("detail", .str msg), by simp, .typeError, ?_⟩
    simp [renderCard, getProp, Res.bind]

/-! ## Signup and unregister replies -/

/-- C2, as stated, fails: a signup (and an unregister) answered 200 with the
JSON body `null` makes `result.message` throw; the `catch` block shows the
failure text with error styling and no board refresh is triggered. -/
theorem null_body_reply_takes_catch_path :
    (signup_resume (.response 200 (some .null))
        (signup_start "a@b.com" "Chess Club" (blankPage none))).messageDiv
      = { text := "Failed to sign up. Please try again.", classes := ["error"] } ∧
    (signup_resume (.response 200 (some .null))
        (signup_start "a@b.com" "Chess Club" (blankPage none))).requests
      = [.signup "Chess Club" "a@b.com"] ∧
    (handleUnregister_resume (.response 200 (some .null)) (blankPage none)).messageDiv
      = { text := "Failed to unregister. Please try again.", classes := ["error"] } ∧
    (handleUnregister_resume (.response 200 (some .null)) (blankPage none)).requests = [] := by
  decide

theorem classRemove_hidden_success : classRemove "hidden" ["success"] = ["success"] := by decide

theorem classRemove_hidden_error : classRemove "hidden" ["error"] = ["error"] := by decide

/-- C2, amended: for signup and for unregister, for every reply whose body is a
JSON object: if the status is 2xx and `message` is a string, the board message
surface shows it with success styling and exactly one board refresh is
triggered; if the status is non-2xx the surface shows `detail` when it is a
non-empty string, and the generic text `An error occurred` when `detail` is
absent or falsy (empty string, zero, false, null), with error styling and no
board refresh. -/
theorem reply_message_shown (status : Nat) (kvs : List (String × JSVal)) (s : State) :
    (∀ m : String, isOk status = true → lookupKey "message" kvs = .str m →
      (signup_resume (.response status (some (.obj kvs))) s).messageDiv
        = { text := m, classes := ["success"] } ∧
      (signup_resume (.response status (some (.obj kvs))) s).requests
        = s.requests ++ [.activities]) ∧
    (∀ m : String, isOk status = false → lookupKey "detail" kvs = .str m → m ≠ "" →
      (signup_resume (.response status (some (.obj kvs))) s).messageDiv
        = { text := m, classes := ["error"] } ∧
      (signup_resume (.response status (some (.obj kvs))) s).requests = s.requests) ∧
    (isOk status = false → truthy (lookupKey "detail" kvs) = false →
      (signup_resume (.response status (some (.obj kvs))) s).messageDiv
        = { text := "An error occurred", classes := ["error"] } ∧
      (signup_resume (.response status (some (.obj kvs))) s).requests = s.requests) ∧
    (∀ m : String, isOk status = true → lookupKey "message" kvs = .str m →
      (handleUnregister_resume (.response status (some (.obj kvs))) s).messageDiv
        = { text := m, classes := ["success"] } ∧
      (handleUnregister_resume (.response status (some (.obj kvs))) s).requests
        = s.requests ++ [.activities]) ∧
    (∀ m : String, isOk status = false → lookupKey "detail" kvs = .str m → m ≠ "" →
      (handleUnregister_resume (.response status (some (.obj kvs))) s).messageDiv
        = { text := m, classes := ["error"] } ∧
      (handleUnregister_resume (.response status (some (.obj kvs))) s).requests = s.requests) ∧
    (isOk status = false → truthy (lookupKey "detail" kvs) = false →
      (handleUnregister_resume (.response status (some (.obj kvs))) s).messageDiv
        = { text := "An error occurred", classes := ["error"] } ∧
      (handleUnregister_resume (.response status (some (.obj kvs))) s).requests = s.requests) := by
  refine ⟨?_, ?_, ?_, ?_, ?_, ?_⟩
  · intro m hok hm
    simp [signup_resume, signup_success, hok, getProp, hm, Res.bind, domString, toStr,
      showBoardMessage, fetchActivities_start, classRemove_hidden_success]
  · intro m hok hm hne
    have ht : truthy (JSVal.str m) = true := by simp [truthy, hne]
    simp [signup_resume, showDetail, hok, getProp, hm, ht, Res.bind, domString, toStr,
      showBoardMessage, classRemove_hidden_error]
  · intro hok ht
    simp [signup_resume, showDetail, hok, getProp, ht, Res.bind, domString, toStr,
      showBoardMessage, classRemove_hidden_error]
  · intro m hok hm
    simp [handleUnregister_resume, handleUnregister_success, hok, getProp, hm, Res.bind,
      domString, toStr, showBoardMessage, fetchActivities_start, classRemove_hidden_success]
  · intro m hok hm hne
    have ht : truthy (JSVal.str m) = true := by simp [truthy, hne]
    simp [handleUnregister_resume, showDetail, hok, getProp, hm, ht, Res.bind, domString, toStr,
      showBoardMessage, classRemove_hidden_error]
  · intro hok ht
    simp [handleUnregister_resume, showDetail, hok, getProp, ht, Res.bind, domString, toStr,
      showBoardMessage, classRemove_hidden_error]

/-- C2, amended, instances: the signup reply 200 with message `Signed up`, and
the unregister reply 404 with detail `Not found`. -/
theorem reply_message_shown_witness :
    ((signup_resume (.response 200 (some (.obj [("message", .str "Signed up")])))
        (blankPage none)).messageDiv = { text := "Signed up", classes := ["success"] } ∧
      (signup_resume (.response 200 (some (.obj [("message", .str "Signed up")])))
        (blankPage none)).requests = (blankPage none).requests ++ [.activities]) ∧
    ((handleUnregister_resume (.response 404 (some (.obj [("detail", .str "Not found")])))
        (blankPage none)).messageDiv = { text := "Not found", classes := ["error"] } ∧
      (handleUnregister_resume (.response 404 (some (.obj [("detail", .str "Not found")])))
        (blankPage none)).requests = (blankPage none).requests) :=
  ⟨(reply_message_shown 200 [("message", .str "Signed up")] (blankPage none)).1
      "Signed up" (by decide) rfl,
   (reply_message_shown 404 [("detail", .str "Not found")] (blankPage none)).2.2.2.2.1
      "Not found" (by decide) rfl (by decide)⟩

/-! ## Timers -/

theorem surfaceOf_fire_other (a b : TimerAction) (s : State) (h : b ≠ a) :
    surfaceOf a (fire b s) = surfaceOf a s := by
  cases a <;> cases b <;> first | exact absurd rfl h | rfl

theorem surfaceOf_fire_hidden (a b : TimerAction) (s : State)
    (h : isHidden (surfaceOf a s).classes = true) :
    isHidden (surfaceOf a (fire b s)).classes = true := by
  cases a <;> cases b <;>
    first
    | exact isHidden_classAdd _
    | exact h

theorem surfaceOf_fire_self (a : TimerAction) (s : State) :
    isHidden (surfaceOf a (fire a s)).classes = true := by
  cases a <;> exact isHidden_classAdd _

theorem foldl_fire_other (a : TimerAction) (ts : List Timer) (s : State)
    (h : ∀ t ∈ ts, t.action ≠ a) :
    surfaceOf a (ts.foldl (fun st t => fire t.action st) s) = surfaceOf a s := by
  induction ts generalizing s with
  | nil => rfl
  | cons t rest ih =>
    simp only [List.foldl_cons]
    rw [ih _ (fun t2 h2 => h t2 (List.mem_cons_of_mem _ h2))]
    exact surfaceOf_fire_other a t.action s (h t (List.mem_cons_self _ _))

theorem foldl_fire_hidden (a : TimerAction) (ts : List Timer) (s : State)
    (h : isHidden (surfaceOf a s).classes = true) :
    isHidden (surfaceOf a (ts.foldl (fun st t => fire t.action st) s)).classes = true := by
  induction ts generalizing s with
  | nil => exact h
  | cons t rest ih =>
    simp only [List.foldl_cons]
    exact ih _ (surfaceOf_fire_hidden a t.action s h)

theorem foldl_fire_mem (a : TimerAction) (ts : List Timer) (s : State)
    (h : ∃ t ∈ ts, t.action = a) :
    isHidden (surfaceOf a (ts.foldl (fun st t => fire t.action st) s)).classes = true := by
  induction ts generalizing s with
  | nil => simp at h
  | cons t rest ih =>
    simp only [List.foldl_cons]
    by_cases ht : t.action = a
    · apply foldl_fire_hidden
      rw [ht]
      exact surfaceOf_fire_self a s
    · apply ih
      obtain ⟨t2, h2, h3⟩ := h
      rcases List.mem_cons.mp h2 with h4 | h4
      · subst h4
        exact absurd h3 ht
      · exact ⟨t2, h4, h3⟩

theorem shown_then_hidden (a : TimerAction) (s1 : State) (old : List Timer) (d : Nat)
    (ht : s1.timers = old ++ [{ due := s1.now + 5000, action := a }])
    (hold : ∀ t ∈ old, t.action ≠ a)
    (hv : isHidden (surfaceOf a s1).classes = false) :
    isHidden (surfaceOf a (elapse d s1)).classes = decide (5000 ≤ d) := by
  unfold elapse
  by_cases hd : 5000 ≤ d
  · simp only [hd, decide_True]
    apply foldl_fire_mem
    refine ⟨{ due := s1.now + 5000, action := a }, ?_, rfl⟩
    rw [ht]
    simp only [List.mem_filter, List.mem_append, List.mem_singleton, or_true, true_and,
      decide_eq_true_eq]
    omega
  · simp only [hd, decide_False]
    rw [foldl_fire_other]
    · cases a <;> exact hv
    · intro t htm
      rw [ht] at htm
      simp only [List.mem_filter, List.mem_append, List.mem_singleton, decide_eq_true_eq] at htm
      rcases htm.1 with h1 | h1
      · exact hold t h1
      · subst h1
        simp only at htm
        omega

theorem showBoardMessage_elapse (s s1 : State) (d : Nat) (ht : s1.timers = s.timers)
    (hp : noPending .hideMessageDiv s) :
    isHidden (elapse d (showBoardMessage s1)).messageDiv.classes = decide (5000 ≤ d) := by
  have h := shown_then_hidden .hideMessageDiv (showBoardMessage s1) s1.timers d rfl
    (by rw [ht]; exact hp) (isHidden_classRemove _)
  exact h

theorem signup_resume_reply (status : Nat) (kvs : List (String × JSVal)) (s : State)
    (hm : displayable (lookupKey "message" kvs)) (hd : displayable (lookupKey "detail" kvs)) :
    ∃ s1, s1.timers = s.timers ∧
      signup_resume (.response status (some (.obj kvs))) s = showBoardMessage s1 := by
  obtain ⟨tm, htm⟩ := hm
  obtain ⟨td, htd⟩ := hd
  unfold signup_resume
  by_cases hok : isOk status = true
  · simp only [hok, if_true, signup_success, getProp, Res.bind_ok, htm]
    refine ⟨_, ?_, rfl⟩
    rfl
  · simp only [hok, showDetail, getProp, Res.bind_ok, Bool.false_eq_true, if_false]
    by_cases htr : truthy (lookupKey "detail" kvs) = true
    · simp only [htr, if_true, htd]
      refine ⟨_, ?_, rfl⟩
      rfl
    · simp only [htr, domString, toStr, Bool.false_eq_true, if_false]
      refine ⟨_, ?_, rfl⟩
      rfl

theorem handleUnregister_resume_reply (status : Nat) (kvs : List (String × JSVal)) (s : State)
    (hm : displayable (lookupKey "message" kvs)) (hd : displayable (lookupKey "detail" kvs)) :
    ∃ s1, s1.timers = s.timers ∧
      handleUnregister_resume (.response status (some (.obj kvs))) s = showBoardMessage s1 := by
  obtain ⟨tm, htm⟩ := hm
  obtain ⟨td, htd⟩ := hd
  unfold handleUnregister_resume
  by_cases hok : isOk status = true
  · simp only [hok, if_true, handleUnregister_success, getProp, Res.bind_ok, htm]
    refine ⟨_, ?_, rfl⟩
    rfl
  · simp only [hok, showDetail, getProp, Res.bind_ok, Bool.false_eq_true, if_false]
    by_cases htr : truthy (lookupKey "detail" kvs) = true
    · simp only [htr, if_true, htd]
      refine ⟨_, ?_, rfl⟩
      rfl
    · simp only [htr, domString, toStr, Bool.false_eq_true, if_false]
      refine ⟨_, ?_, rfl⟩
      rfl

/-- C8, as stated, fails.  First part: of two failed logins answered three
seconds apart, the second message is shown at time 3000 and is hidden two
seconds later, at time 5000, by the timer of the first.  Second part: the
message of a signup (and of an unregister) that fails at the network is shown
with no timer pending, and is still shown after five seconds and after a
minute. -/
theorem message_hidden_early_or_never :
    (twoLoginFailures.now = 3000 ∧
      twoLoginFailures.loginMessage = { text := "Second", classes := ["message", "error"] } ∧
      (elapse 2000 twoLoginFailures).now = 5000 ∧
      (elapse 2000 twoLoginFailures).loginMessage.text = "Second" ∧
      isHidden (elapse 2000 twoLoginFailures).loginMessage.classes = true) ∧
    ((signup_resume .networkError (blankPage none)).messageDiv
        = { text := "Failed to sign up. Please try again.", classes := ["error"] } ∧
      (signup_resume .networkError (blankPage none)).timers = [] ∧
      isHidden (elapse 5000 (signup_resume .networkError (blankPage none))).messageDiv.classes
        = false ∧
      isHidden (elapse 60000 (signup_resume .networkError (blankPage none))).messageDiv.classes
        = false ∧
      (handleUnregister_resume .networkError (blankPage none)).timers = [] ∧
      isHidden (elapse 5000
        (handleUnregister_resume .networkError (blankPage none))).messageDiv.classes = false) := by
  decide

/-- C8, amended: a message shown by `showLoginMessage`, and a message shown by
signup or unregister for a reply whose body is a JSON object with a displayable
`message` and `detail`, stays visible for every delay below 5000 ms and is
hidden for every delay from 5000 ms on, provided no timer set for an earlier
message of the same surface is still pending when it is shown and nothing else
runs in between.  (The network-failure paths of signup and unregister are left
out.) -/
theorem message_hidden_after_five_seconds (s : State) (d : Nat) :
    (∀ (msg : JSVal) (kind : String), displayable msg → noPending .hideLoginMessage s →
      isHidden (elapse d (showLoginMessage msg kind s).1).loginMessage.classes
        = decide (5000 ≤ d)) ∧
    (∀ (status : Nat) (kvs : List (String × JSVal)),
      displayable (lookupKey "message" kvs) → displayable (lookupKey "detail" kvs) →
      noPending .hideMessageDiv s →
      isHidden (elapse d (signup_resume (.response status (some (.obj kvs))) s)).messageDiv.classes
        = decide (5000 ≤ d)) ∧
    (∀ (status : Nat) (kvs : List (String × JSVal)),
      displayable (lookupKey "message" kvs) → displayable (lookupKey "detail" kvs) →
      noPending .hideMessageDiv s →
      isHidden (elapse d
          (handleUnregister_resume (.response status (some (.obj kvs))) s)).messageDiv.classes
        = decide (5000 ≤ d)) := by
  refine ⟨?_, ?_, ?_⟩
  · intro msg kind hdis hp
    obtain ⟨t, ht⟩ := hdis
    have h := shown_then_hidden .hideLoginMessage (showLoginMessage msg kind s).1 s.timers d
      (by simp [showLoginMessage, ht]) hp
      (by simp only [showLoginMessage, ht, surfaceOf]; exact isHidden_classRemove _)
    exact h
  · intro status kvs hm hd hp
    obtain ⟨s1, h1, h2⟩ := signup_resume_reply status kvs s hm hd
    rw [h2]
    exact showBoardMessage_elapse s s1 d h1 hp
  · intro status kvs hm hd hp
    obtain ⟨s1, h1, h2⟩ := handleUnregister_resume_reply status kvs s hm hd
    rw [h2]
    exact showBoardMessage_elapse s s1 d h1 hp

/-- C8, amended, instances: a login message on a page with no pending timer is
visible after 4999 ms and hidden after 5000 ms; the message of the signup reply
`Signed up` likewise. -/
theorem message_hidden_after_five_seconds_witness :
    (isHidden (elapse 4999 (showLoginMessage (.str "Bad credentials") "error"
        (blankPage none)).1).loginMessage.classes = false ∧
      isHidden (elapse 5000 (showLoginMessage (.str "Bad credentials") "error"
        (blankPage none)).1).loginMessage.classes = true) ∧
    (isHidden (elapse 4999 (signup_resume (.response 200 (some (.obj [("message", .str "Signed up")])))
        (blankPage none))).messageDiv.classes = false ∧
      isHidden (elapse 5000 (signup_resume (.response 200 (some (.obj [("message", .str "Signed up")])))
        (blankPage none))).messageDiv.classes = true) :=
  ⟨⟨(message_hidden_after_five_seconds (blankPage none) 4999).1 (.str "Bad credentials") "error"
      ⟨"Bad credentials", rfl⟩ (by intro t ht; simp [blankPage] at ht),
    (message_hidden_after_five_seconds (blankPage none) 5000).1 (.str "Bad credentials") "error"
      ⟨"Bad credentials", rfl⟩ (by intro t ht; simp [blankPage] at ht)⟩,
   ⟨(message_hidden_after_five_seconds (blankPage none) 4999).2.1 200
      [("message", .str "Signed up")] ⟨"Signed up", rfl⟩ ⟨"", rfl⟩
      (by intro t ht; simp [blankPage] at ht),
    (message_hidden_after_five_seconds (blankPage none) 5000).2.1 200
      [("message", .str "Signed up")] ⟨"Signed up", rfl⟩ ⟨"", rfl⟩
      (by intro t ht; simp [blankPage] at ht)⟩⟩

end Board
